import Mathlib

set_option maxRecDepth 10000
set_option maxHeartbeats 1000000

/-!
Verification development for the cascade compiler front-end
(lexer, parser, typechecker), shallowly embedded from the C++ sources:
  - src/core/lexer.{hh,cc}
  - src/core/parser.cc
  - src/core/typechecker.cc
  - src/ast/detail/{nodes,types,literals,expressions,declarations}.hh
  - include/cascade/ast/detail/statements.hh
  - src/util/keywords.cc
  - src/errors/error_lookup.hh

Machine strings are modelled as `List Char`; positions as `Nat`.
-/

namespace Cascade

/-- Token kinds, from `core::token::kind` in src/core/lexer.hh. -/
inductive TokKind where
  | unknown
  | error
  | literal_char
  | literal_string
  | literal_number
  | literal_float
  | literal_bool
  | identifier
  | keyword_const
  | keyword_static
  | keyword_fn
  | keyword_struct
  | keyword_pub
  | keyword_let
  | keyword_mut
  | keyword_loop
  | keyword_while
  | keyword_for
  | keyword_in
  | keyword_break
  | keyword_continue
  | keyword_ret
  | keyword_assert
  | keyword_module
  | keyword_import
  | keyword_as
  | keyword_from
  | keyword_export
  | keyword_if
  | keyword_then
  | keyword_else
  | keyword_and
  | keyword_or
  | keyword_xor
  | keyword_not
  | keyword_clone
  | keyword_type
  | symbol_equal
  | symbol_colon
  | symbol_coloncolon
  | symbol_star
  | symbol_pound
  | symbol_openbracket
  | symbol_closebracket
  | symbol_at
  | symbol_dot
  | symbol_openbrace
  | symbol_closebrace
  | symbol_openparen
  | symbol_closeparen
  | symbol_semicolon
  | symbol_pipe
  | symbol_caret
  | symbol_plus
  | symbol_hyphen
  | symbol_forwardslash
  | symbol_percent
  | symbol_lt
  | symbol_leq
  | symbol_gt
  | symbol_geq
  | symbol_gtgt
  | symbol_ltlt
  | symbol_equalequal
  | symbol_bangequal
  | symbol_gtgtequal
  | symbol_ltltequal
  | symbol_poundequal
  | symbol_pipeequal
  | symbol_caretequal
  | symbol_percentequal
  | symbol_forwardslashequal
  | symbol_starequal
  | symbol_hyphenequal
  | symbol_plusequal
  | symbol_comma
  | symbol_tilde
  deriving DecidableEq, Repr

/-- A lexical token: `core::token` (source path dropped; single-file model).
The `source_info` length is the raw lexeme's length, as in the token
constructor in src/core/lexer.hh. -/
structure Token where
  pos : Nat
  line : Nat
  col : Nat
  kind : TokKind
  raw : List Char
  deriving DecidableEq, Repr

/-- Error codes: `errors::error_code` from src/errors/error_lookup.hh, extended
with the four codes that src/core/parser.cc and src/core/typechecker.cc report
but that are missing from that enum draft (`unexpected_builtin`,
`mismatched_types`, `dereference_requires_pointer_type`,
`using_variable_in_initializer`). -/
inductive ErrCode where
  | unknown_char
  | unterminated_str
  | unterminated_char
  | unexpected_tok
  | unterminated_block_comment
  | number_literal_too_large
  | unclosed_paren
  | expected_expression
  | unexpected_expression
  | expected_semi
  | expected_else_after_then
  | invalid_char_literal
  | unmatched_brace
  | unexpected_end_of_input
  | expected_comma
  | expected_closing_bracket
  | expected_opening_brace
  | expected_type
  | expected_identifier
  | expected_declaration
  | cannot_export_export
  | duplicate_module
  | unexpected_builtin
  | mismatched_types
  | dereference_requires_pointer_type
  | using_variable_in_initializer
  deriving DecidableEq, Repr

/-- A reported diagnostic: code plus the span of the offending token or node.
Human-readable message/note strings are not modelled (no claim inspects them). -/
structure Diag where
  code : ErrCode
  pos : Nat
  len : Nat
  deriving DecidableEq, Repr

/-! ## Character classes (std::isdigit / isalpha / isspace, C locale) -/

def isDigitC (c : Char) : Bool := '0' ≤ c && c ≤ '9'

def isAlphaC (c : Char) : Bool := ('a' ≤ c && c ≤ 'z') || ('A' ≤ c && c ≤ 'Z')

def isSpaceC (c : Char) : Bool :=
  c = ' ' || c = '\t' || c = '\n' || c = '\x0b' || c = '\x0c' || c = '\x0d'

/-! ## Keyword and symbol tables (src/util/keywords.cc, src/core/lexer.cc)

`string_to_kind` is built at startup by reversing `kind_to_string` and then
adding `true`/`false`; note that `kind_to_string` has NO entries for the
`keyword_type` ("type") and `keyword_clone` ("clone") kinds, so those
spellings are not in the reverse map either. -/

/-- The contents of `string_to_kind` after the startup initializer ran
(src/util/keywords.cc lines 32-124). -/
def keywordTable : List (List Char × TokKind) :=
  [ ("const".data, .keyword_const)
  , ("static".data, .keyword_static)
  , ("fn".data, .keyword_fn)
  , ("struct".data, .keyword_struct)
  , ("pub".data, .keyword_pub)
  , ("let".data, .keyword_let)
  , ("mut".data, .keyword_mut)
  , ("loop".data, .keyword_loop)
  , ("while".data, .keyword_while)
  , ("for".data, .keyword_for)
  , ("in".data, .keyword_in)
  , ("break".data, .keyword_break)
  , ("continue".data, .keyword_continue)
  , ("ret".data, .keyword_ret)
  , ("assert".data, .keyword_assert)
  , ("module".data, .keyword_module)
  , ("import".data, .keyword_import)
  , ("as".data, .keyword_as)
  , ("from".data, .keyword_from)
  , ("export".data, .keyword_export)
  , ("if".data, .keyword_if)
  , ("then".data, .keyword_then)
  , ("else".data, .keyword_else)
  , ("and".data, .keyword_and)
  , ("or".data, .keyword_or)
  , ("xor".data, .keyword_xor)
  , ("not".data, .keyword_not)
  , ("=".data, .symbol_equal)
  , (":".data, .symbol_colon)
  , ("::".data, .symbol_coloncolon)
  , ("*".data, .symbol_star)
  , ("&".data, .symbol_pound)
  , ("[".data, .symbol_openbracket)
  , ("]".data, .symbol_closebracket)
  , ("@".data, .symbol_at)
  , (".".data, .symbol_dot)
  , ("\x7b".data, .symbol_openbrace)
  , ("\x7d".data, .symbol_closebrace)
  , ("(".data, .symbol_openparen)
  , (")".data, .symbol_closeparen)
  , (";".data, .symbol_semicolon)
  , ("|".data, .symbol_pipe)
  , ("^".data, .symbol_caret)
  , ("+".data, .symbol_plus)
  , ("-".data, .symbol_hyphen)
  , ("/".data, .symbol_forwardslash)
  , ("%".data, .symbol_percent)
  , ("<".data, .symbol_lt)
  , ("<=".data, .symbol_leq)
  , (">".data, .symbol_gt)
  , (">=".data, .symbol_geq)
  , (">>".data, .symbol_gtgt)
  , ("<<".data, .symbol_ltlt)
  , ("==".data, .symbol_equalequal)
  , ("!=".data, .symbol_bangequal)
  , (">>=".data, .symbol_gtgtequal)
  , ("<<=".data, .symbol_ltltequal)
  , ("&=".data, .symbol_poundequal)
  , ("|=".data, .symbol_pipeequal)
  , ("^=".data, .symbol_caretequal)
  , ("%=".data, .symbol_percentequal)
  , ("/=".data, .symbol_forwardslashequal)
  , ("*=".data, .symbol_starequal)
  , ("-=".data, .symbol_hyphenequal)
  , ("+=".data, .symbol_plusequal)
  , (",".data, .symbol_comma)
  , ("true".data, .literal_bool)
  , ("false".data, .literal_bool)
  ]

/-- `util::is_kind` / `util::kind_from_string` combined: lookup in
`string_to_kind`, `none` when absent. -/
def stringToKind (s : List Char) : Option TokKind :=
  (keywordTable.find? (fun e => e.1 == s)).map (·.2)

/-- `single_char_symbols` map in src/core/lexer.cc. -/
def singleCharTable : List (Char × TokKind) :=
  [('[', .symbol_openbracket), (']', .symbol_closebracket), ('@', .symbol_at),
   ('.', .symbol_dot), ('{', .symbol_openbrace), ('}', .symbol_closebrace),
   ('(', .symbol_openparen), (')', .symbol_closeparen), (';', .symbol_semicolon),
   (',', .symbol_comma)]

def singleCharSym (c : Char) : Option TokKind :=
  (singleCharTable.find? (fun e => e.1 == c)).map (·.2)

/-- The two-character keys of `one_or_two_char_symbols`, probed with
`std::string{current(), peek()}`. The table's three-character keys
(">>=", "<<=") can never match a two-character probe, so they do not
appear here. -/
def twoCharTable : List ((Char × Char) × TokKind) :=
  [((':', ':'), .symbol_coloncolon), (('<', '='), .symbol_leq),
   (('>', '='), .symbol_geq), (('>', '>'), .symbol_gtgt),
   (('<', '<'), .symbol_ltlt), (('=', '='), .symbol_equalequal),
   (('!', '='), .symbol_bangequal), (('&', '='), .symbol_poundequal),
   (('|', '='), .symbol_pipeequal), (('^', '='), .symbol_caretequal),
   (('%', '='), .symbol_percentequal), (('/', '='), .symbol_forwardslashequal),
   (('*', '='), .symbol_starequal), (('-', '='), .symbol_hyphenequal),
   (('+', '='), .symbol_plusequal)]

def twoCharSym (c d : Char) : Option TokKind :=
  (twoCharTable.find? (fun e => e.1 == (c, d))).map (·.2)

/-- The one-character keys of `one_or_two_char_symbols`. -/
def oneOfTwoTable : List (Char × TokKind) :=
  [('=', .symbol_equal), (':', .symbol_colon), ('*', .symbol_star),
   ('&', .symbol_pound), ('|', .symbol_pipe), ('^', .symbol_caret),
   ('+', .symbol_plus), ('-', .symbol_hyphen), ('/', .symbol_forwardslash),
   ('%', .symbol_percent), ('<', .symbol_lt), ('>', .symbol_gt)]

def oneOfTwoSym (c : Char) : Option TokKind :=
  (oneOfTwoTable.find? (fun e => e.1 == c)).map (·.2)

/-! ## Lexer (src/core/lexer.cc)

The cursor is modelled as the remaining suffix of the source (`rest`,
corresponding to the iterator `m_it`) plus the running
position/line/column counters (`LexSt`).  `current()` past the end of
the buffer reads the NUL terminator, modelled by `headD '\x00'`;
`peek()` is `m_it[1]`. `is_at_end()` is true exactly when the whole
source has been consumed (`rest = []`). -/

structure LexSt where
  pos : Nat
  line : Nat
  col : Nat
  deriving DecidableEq, Repr

/-- One `consume()` of the known head character `c`
(src/core/lexer.cc `lexer::impl::consume`). -/
def bumpSt (c : Char) (st : LexSt) : LexSt :=
  if c = '\n' then ⟨st.pos + 1, st.line + 1, 1⟩ else ⟨st.pos + 1, st.line, st.col + 1⟩

/-- `current()`: the character under the cursor ('\x00' once past the end). -/
def curC (rest : List Char) : Char := rest.headD '\x00'

/-- `peek()`: `m_it[1]`, or EOF when the cursor is at the end.  EOF is
`(char)-1`, i.e. byte 0xFF; one position before the end, the read past the
buffer yields the NUL terminator. -/
def peekC (rest : List Char) : Char :=
  match rest with
  | [] => '\xff'
  | [_] => '\x00'
  | _ :: d :: _ => d

/-- `while (!is_at_end() && (isdigit(current()) || current() == '.')) consume();`
from `consume_digits`. -/
def skipDigits : List Char → LexSt → (List Char × LexSt)
  | [], st => ([], st)
  | c :: r, st =>
    if isDigitC c || c = '.' then skipDigits r (bumpSt c st) else (c :: r, st)

/-- `while (!is_at_end() && (isalpha || isdigit || '_')) consume();`
from `consume_identifier`. -/
def skipIdentChars : List Char → LexSt → (List Char × LexSt)
  | [], st => ([], st)
  | c :: r, st =>
    if isAlphaC c || isDigitC c || c = '_' then skipIdentChars r (bumpSt c st)
    else (c :: r, st)

/-- `do { consume(); } while (isspace(current()));` — the part after the first
`consume()` (whitespace skipping in `lex()`). -/
def skipSpacesLoop : List Char → LexSt → (List Char × LexSt)
  | [], st => ([], st)
  | c :: r, st =>
    if isSpaceC c then skipSpacesLoop r (bumpSt c st) else (c :: r, st)

/-- `while (!is_at_end() && current() != '\n') consume();` (line comments). -/
def skipToNewline : List Char → LexSt → (List Char × LexSt)
  | [], st => ([], st)
  | c :: r, st =>
    if c = '\n' then (c :: r, st) else skipToNewline r (bumpSt c st)

/-- `while (!is_at_end() && !(current() == '*' && peek() == '-')) consume();`
(block comments). -/
def skipBlockBody : List Char → LexSt → (List Char × LexSt)
  | [], st => ([], st)
  | c :: r, st =>
    if c = '*' && peekC (c :: r) = '-' then (c :: r, st)
    else skipBlockBody r (bumpSt c st)

/-- The scanning loop of `consume_stringlike<C>`:
`while (!is_at_end() && current() != C) { if (current()=='\\' && peek()==C)
consume(2); else consume(); }`. -/
def scanStrBody (delim : Char) : List Char → LexSt → (List Char × LexSt)
  | [], st => ([], st)
  | c :: r, st =>
    if c = delim then (c :: r, st)
    else if c = '\\' && peekC (c :: r) = delim then
      match r with
      | [] => ([], bumpSt c st)
      | d :: r2 => scanStrBody delim r2 (bumpSt d (bumpSt c st))
    else scanStrBody delim r (bumpSt c st)

/-- `create_token` of src/core/lexer.cc: token positioned at the saved
`m_starting_*` state. -/
def mkTok (start : LexSt) (k : TokKind) (raw : List Char) : Token :=
  ⟨start.pos, start.line, start.col, k, raw⟩

def mkDiag (code : ErrCode) (t : Token) : Diag := ⟨code, t.pos, t.raw.length⟩

/-- The whitespace branch of the lexer's main loop
(`do { consume(); } while (isspace(current()));`). -/
def lexSpaces (c : Char) (rt : List Char) (st : LexSt) :
    Option Token × List Diag × List Char × LexSt :=
  let (r1, st1) := skipSpacesLoop rt (bumpSt c st)
  (none, [], r1, st1)

/-- The line-comment branch (`-- … <newline>`). -/
def lexLineComment (c : Char) (rt : List Char) (st : LexSt) :
    Option Token × List Diag × List Char × LexSt :=
  match rt with
  | [] => (none, [], [], bumpSt c st)
  | d :: r2 =>
    let (r3, st3) := skipToNewline r2 (bumpSt d (bumpSt c st))
    match r3 with
    | [] => (none, [], [], st3)
    | e :: r4 => (none, [], r4, bumpSt e st3)

/-- The block-comment branch (`-* … *-`), reporting
`unterminated_block_comment` on EOF with an `error`-kind token over the
opening `-*`. -/
def lexBlockComment (c : Char) (rt : List Char) (st : LexSt) :
    Option Token × List Diag × List Char × LexSt :=
  match rt with
  | [] => (none, [], [], bumpSt c st)
  | d :: r2 =>
    let (r3, st3) := skipBlockBody r2 (bumpSt d (bumpSt c st))
    match r3 with
    | [] =>
      (none, [mkDiag .unterminated_block_comment (mkTok st .error ((c :: rt).take 2))],
       [], st3)
    | e :: r4 =>
      match r4 with
      | [] => (none, [], [], bumpSt e st3)
      | e2 :: r5 => (none, [], r5, bumpSt e2 (bumpSt e st3))

/-- `lexer::impl::consume_digits` as a loop-body branch: on a trailing
alphabetic character the whole digits-plus-identifier lexeme becomes the
payload of an `unexpected_tok` diagnostic and no token is returned. -/
def lexNumber (rest : List Char) (st : LexSt) :
    Option Token × List Diag × List Char × LexSt :=
  let (r1, st1) := skipDigits rest st
  if isAlphaC (curC r1) then
    let (r2, st2) := skipIdentChars r1 st1
    let full := rest.take (st2.pos - st.pos)
    let kd := (stringToKind full).getD .identifier
    (none, [mkDiag .unexpected_tok (mkTok st kd full)], r2, st2)
  else
    (some (mkTok st .literal_number (rest.take (st1.pos - st.pos))), [], r1, st1)

/-- `lexer::impl::consume_identifier` as a loop-body branch. -/
def lexIdent (rest : List Char) (st : LexSt) :
    Option Token × List Diag × List Char × LexSt :=
  let (r1, st1) := skipIdentChars rest st
  let full := rest.take (st1.pos - st.pos)
  (some (mkTok st ((stringToKind full).getD .identifier) full), [], r1, st1)

/-- `lexer::impl::consume_stringlike<C>` as a loop-body branch; the token
kind and the unterminated-literal code are chosen from the delimiter as in
the `if constexpr`. -/
def lexStringlike (delim : Char) (rt : List Char) (st : LexSt) :
    Option Token × List Diag × List Char × LexSt :=
  let kd := if delim = '\'' then TokKind.literal_char else TokKind.literal_string
  let code := if delim = '\'' then ErrCode.unterminated_char else ErrCode.unterminated_str
  let (r1, st1) := scanStrBody delim rt (bumpSt delim st)
  match r1 with
  | [] =>
    (none, [mkDiag code (mkTok st kd ((delim :: rt).take (st1.pos - st.pos)))], [], st1)
  | e :: r2 =>
    (some (mkTok st kd ((delim :: rt).take (st1.pos + 1 - st.pos))), [], r2, bumpSt e st1)

/-- One iteration of the lexer's main loop body on a non-empty cursor
(src/core/lexer.cc `lexer::impl::lex`, lines 338-433).  Returns the token
pushed (if any), the diagnostics reported, and the new cursor/state.
`st` is the state at the start of the iteration; `update_starting()` makes
it the token's start. -/
def lexOne (c : Char) (rt : List Char) (st : LexSt) :
    Option Token × List Diag × List Char × LexSt :=
  let rest := c :: rt
  if isSpaceC c then lexSpaces c rt st
  else if c = '-' && peekC rest = '-' then lexLineComment c rt st
  else if c = '-' && peekC rest = '*' then lexBlockComment c rt st
  else if isDigitC c then lexNumber rest st
  else if isAlphaC c || c = '_' then lexIdent rest st
  else
    match singleCharSym c with
    | some k => (some (mkTok st k [c]), [], rt, bumpSt c st)
    | none =>
      match twoCharSym c (peekC rest) with
      | some k =>
        match rt with
        | [] => (some (mkTok st k [c, peekC rest]), [], [], bumpSt c st)
        | d :: r2 => (some (mkTok st k [c, d]), [], r2, bumpSt d (bumpSt c st))
      | none =>
        match oneOfTwoSym c with
        | some k => (some (mkTok st k [c]), [], rt, bumpSt c st)
        | none =>
          if c = '"' then lexStringlike '"' rt st
          else if c = '\'' then lexStringlike '\'' rt st
          else (none, [mkDiag .unknown_char (mkTok st .unknown [c])], rt, bumpSt c st)

/-- The lexer's main loop (`while (!is_at_end())`).  Every iteration consumes
at least one character, so fuel `length + 1` (as supplied by `lex`) never
runs out. -/
def lexLoop : Nat → List Char → LexSt → (List Token × List Diag)
  | 0, _, _ => ([], [])
  | fuel + 1, rest, st =>
    match rest with
    | [] => ([], [])
    | c :: rt =>
      let (t?, ds, r', st') := lexOne c rt st
      let (ts, ds2) := lexLoop fuel r' st'
      (t?.toList ++ ts, ds ++ ds2)

/-- `lexer::lex`: eagerly tokenize a whole source buffer. -/
def lex (src : List Char) : List Token × List Diag :=
  lexLoop (src.length + 1) src ⟨0, 1, 1⟩

/-! ## Source spans -/

/-- `core::source_info` (path dropped; single-file model). -/
structure SourceInfo where
  pos : Nat
  line : Nat
  col : Nat
  len : Nat
  deriving DecidableEq, Repr

def Token.info (t : Token) : SourceInfo := ⟨t.pos, t.line, t.col, t.raw.length⟩

/-- Modelled from the spec: `source_info::from(one, two)` is declared in
src/core/lexer.hh but its definition is not under src/.  Spec §3: "A
combining operation yields a span covering two SourceInfos: earliest
position and line/column, length extended to cover the latter's end." -/
def srcInfoFrom (a b : SourceInfo) : SourceInfo :=
  if a.pos ≤ b.pos then ⟨a.pos, a.line, a.col, max (a.pos + a.len) (b.pos + b.len) - a.pos⟩
  else ⟨b.pos, b.line, b.col, max (a.pos + a.len) (b.pos + b.len) - b.pos⟩

/-- Modelled from the spec: `source_info::from(original, new_len)`
(same span with the length replaced); definition not under src/. -/
def srcInfoWithLen (a : SourceInfo) (n : Nat) : SourceInfo := ⟨a.pos, a.line, a.col, n⟩

/-! ## AST (src/ast/detail/*.hh, include/cascade/ast/detail/statements.hh)

Each concrete C++ node class becomes one constructor.  The `kind`
discriminator that every C++ constructor writes into the `node` base is
recovered by the `*Kind` functions below — transcribed from the constructor
initializer lists, including the two places where a constructor stores a
kind that does not match its own class (`ast::loop` stores `statement_ret`,
`ast::type_decl` stores `declaration_export`). -/

/-- `ast::kind` from src/ast/detail/nodes.hh.  Note there is no
`statement_loop` entry at all. -/
inductive NodeKind where
  | literal_char
  | literal_string
  | literal_number
  | literal_bool
  | literal_float
  | identifier
  | type_ptr
  | type_ref
  | type_array
  | type_builtin
  | type_userdef
  | type_implied
  | type_void
  | declaration_const
  | declaration_static
  | declaration_fn
  | declaration_struct
  | declaration_module
  | declaration_import
  | declaration_export
  | declaration_argument
  | declaration_type
  | expression_call
  | expression_binary
  | expression_unary
  | expression_field_access
  | expression_index
  | expression_if_else
  | expression_block
  | expression_array
  | expression_struct
  | statement_expression
  | statement_let
  | statement_mut
  | statement_ret
  deriving DecidableEq, Repr

/-- `ast::numeric_type`, as used by the parser's builtin-type leaves.  The
defining header is not under src/; the four alternatives are those named at
the use sites in src/core/parser.cc and src/util/types.cc. -/
inductive NumericType where
  | boolean
  | integer
  | unsigned_integer
  | floating_point
  deriving DecidableEq, Repr

/-- Type-expression nodes (`ast::reference`/`ast::pointer` from
include/cascade/ast/detail/types.hh; `ast::array`, `ast::builtin`,
`ast::user_defined` per their constructor calls in src/core/parser.cc,
their own headers being absent from src/; `ast::implied`/`ast::void_type`
from src/ast/detail/types.hh). -/
inductive TypeNode where
  | reference (info : SourceInfo) (isMut : Bool) (held : TypeNode)
  | pointer (info : SourceInfo) (isMut : Bool) (held : TypeNode)
  | array (info : SourceInfo) (len : Nat) (held : TypeNode)
  | builtin (info : SourceInfo) (precision : Nat) (numeric : NumericType)
  | user_defined (info : SourceInfo) (name : List Char)
  | implied (info : SourceInfo)
  | void_type (info : SourceInfo)
  deriving DecidableEq, Repr

def TypeNode.info : TypeNode → SourceInfo
  | .reference i _ _ => i
  | .pointer i _ _ => i
  | .array i _ _ => i
  | .builtin i _ _ => i
  | .user_defined i _ => i
  | .implied i => i
  | .void_type i => i

mutual
/-- Expression nodes (src/ast/detail/expressions.hh, literals.hh).
`float_lit` carries no value: the C++ `float` payload is not representable
here and the parser never constructs the node (its `literal_float` branch
builds an `int_literal`).  `struct_init` is omitted: no parser production
constructs it.  A block's statement list holds `Option Stmt` because the
stubbed statement productions return null pointers that `block` stores. -/
inductive Expr where
  | char_lit (info : SourceInfo) (value : Char)
  | string_lit (info : SourceInfo) (value : List Char)
  | int_lit (info : SourceInfo) (value : Int)
  | float_lit (info : SourceInfo)
  | bool_lit (info : SourceInfo) (value : Bool)
  | ident (info : SourceInfo) (name : List Char)
  | call (info : SourceInfo) (callee : Expr) (args : List Expr)
  | binary (info : SourceInfo) (op : TokKind) (lhs rhs : Expr)
  | unary (info : SourceInfo) (op : TokKind) (rhs : Expr)
  | field_access (info : SourceInfo) (accessed : Expr) (field : List Char)
  | index (info : SourceInfo) (arr idx : Expr)
  | if_else (info : SourceInfo) (cond tclause : Expr) (fclause : Option Expr)
  | block (info : SourceInfo) (stmts : List (Option Stmt)) (rtype : TypeNode)

/-- Statement nodes (include/cascade/ast/detail/statements.hh). -/
inductive Stmt where
  | expr_stmt (info : SourceInfo) (e : Expr)
  | letS (info : SourceInfo) (init : Expr) (ty : TypeNode) (name : List Char)
  | mutS (info : SourceInfo) (init : Expr) (ty : TypeNode) (name : List Char)
  | retS (info : SourceInfo) (val : Option Expr)
  | loopS (info : SourceInfo) (cond : Option Expr) (body : Expr)
end

/-- `ast::argument` (src/ast/detail/declarations.hh). -/
structure ArgDecl where
  info : SourceInfo
  name : List Char
  ty : TypeNode

/-- Declaration nodes (src/ast/detail/declarations.hh).  `import_decl` is
omitted: `parser_impl::import_decl` is the stub `return nullptr;` and never
constructs one. -/
inductive Decl where
  | const_decl (info : SourceInfo) (name : List Char) (init : Expr) (ty : TypeNode)
  | static_decl (info : SourceInfo) (name : List Char) (init : Expr) (ty : TypeNode)
  | fn (info : SourceInfo) (name : List Char) (args : List ArgDecl) (rtype : TypeNode)
       (body : Expr)
  | module_decl (info : SourceInfo) (name : List Char)
  | export_decl (info : SourceInfo) (exported : Decl)
  | type_decl (info : SourceInfo) (ty : TypeNode) (name : List Char)

/-- `ast::program`. -/
structure Program where
  decls : List Decl

def Expr.info : Expr → SourceInfo
  | .char_lit i _ => i
  | .string_lit i _ => i
  | .int_lit i _ => i
  | .float_lit i => i
  | .bool_lit i _ => i
  | .ident i _ => i
  | .call i _ _ => i
  | .binary i _ _ _ => i
  | .unary i _ _ => i
  | .field_access i _ _ => i
  | .index i _ _ => i
  | .if_else i _ _ _ => i
  | .block i _ _ => i

def Stmt.info : Stmt → SourceInfo
  | .expr_stmt i _ => i
  | .letS i _ _ _ => i
  | .mutS i _ _ _ => i
  | .retS i _ => i
  | .loopS i _ _ => i

def Decl.info : Decl → SourceInfo
  | .const_decl i _ _ _ => i
  | .static_decl i _ _ _ => i
  | .fn i _ _ _ _ => i
  | .module_decl i _ => i
  | .export_decl i _ => i
  | .type_decl i _ _ => i

/-- The `kind` each statement constructor writes into the `node` base.
`loop` stores `kind::statement_ret` (include/cascade/ast/detail/statements.hh
line 113) — there is no loop kind in the enum. -/
def Stmt.kindOf : Stmt → NodeKind
  | .expr_stmt _ _ => .statement_expression
  | .letS _ _ _ _ => .statement_let
  | .mutS _ _ _ _ => .statement_mut
  | .retS _ _ => .statement_ret
  | .loopS _ _ _ => .statement_ret

/-- The `kind` each declaration constructor writes into the `node` base.
`type_decl` stores `kind::declaration_export`
(src/ast/detail/declarations.hh line 240). -/
def Decl.kindOf : Decl → NodeKind
  | .const_decl _ _ _ _ => .declaration_const
  | .static_decl _ _ _ _ => .declaration_static
  | .fn _ _ _ _ _ => .declaration_fn
  | .module_decl _ _ => .declaration_module
  | .export_decl _ _ => .declaration_export
  | .type_decl _ _ _ => .declaration_export

def Expr.kindOf : Expr → NodeKind
  | .char_lit _ _ => .literal_char
  | .string_lit _ _ => .literal_string
  | .int_lit _ _ => .literal_number
  | .float_lit _ => .literal_float
  | .bool_lit _ _ => .literal_bool
  | .ident _ _ => .identifier
  | .call _ _ _ => .expression_call
  | .binary _ _ _ _ => .expression_binary
  | .unary _ _ _ => .expression_unary
  | .field_access _ _ _ => .expression_field_access
  | .index _ _ _ => .expression_index
  | .if_else _ _ _ _ => .expression_if_else
  | .block _ _ _ => .expression_block

/-- The concrete C++ classes that `ast::node::accept` can `reinterpret_cast`
to, plus `loop` (the class of loop statement objects, which the dispatch
switch never names). -/
inductive CClass where
  | char_literal
  | string_literal
  | int_literal
  | bool_literal
  | float_literal
  | identifier
  | const_decl
  | static_decl
  | fn
  | module_decl
  | import_decl
  | export_decl
  | argument
  | type_decl
  | call
  | binary
  | unary
  | field_access
  | index
  | if_else
  | block
  | array_expr
  | struct_init
  | expression_statement
  | let_stmt
  | mut_stmt
  | ret_stmt
  | loop_stmt
  | type_base
  deriving DecidableEq, Repr

/-- The class that `ast::node::accept` (src/ast/ast.hh lines 46-144)
dispatches a node of the given `kind` to; `none` for
`declaration_struct`, which throws `std::logic_error`. -/
def acceptDispatch : NodeKind → Option CClass
  | .literal_char => some .char_literal
  | .literal_string => some .string_literal
  | .literal_number => some .int_literal
  | .literal_bool => some .bool_literal
  | .literal_float => some .float_literal
  | .identifier => some .identifier
  | .declaration_const => some .const_decl
  | .declaration_static => some .static_decl
  | .declaration_fn => some .fn
  | .declaration_struct => none
  | .declaration_module => some .module_decl
  | .declaration_import => some .import_decl
  | .declaration_export => some .export_decl
  | .declaration_argument => some .argument
  | .declaration_type => some .type_decl
  | .expression_call => some .call
  | .expression_binary => some .binary
  | .expression_unary => some .unary
  | .expression_field_access => some .field_access
  | .expression_index => some .index
  | .expression_if_else => some .if_else
  | .expression_block => some .block
  | .expression_array => some .array_expr
  | .expression_struct => some .struct_init
  | .statement_expression => some .expression_statement
  | .statement_let => some .let_stmt
  | .statement_mut => some .mut_stmt
  | .statement_ret => some .ret_stmt
  | .type_ptr => some .type_base
  | .type_ref => some .type_base
  | .type_array => some .type_base
  | .type_builtin => some .type_base
  | .type_userdef => some .type_base
  | .type_implied => some .type_base
  | .type_void => some .type_base

/-- The actual runtime class of a statement object. -/
def Stmt.classOf : Stmt → CClass
  | .expr_stmt _ _ => .expression_statement
  | .letS _ _ _ _ => .let_stmt
  | .mutS _ _ _ _ => .mut_stmt
  | .retS _ _ => .ret_stmt
  | .loopS _ _ _ => .loop_stmt

/-! ## Parser (src/core/parser.cc)

State is the token index `i` plus the diagnostics reported so far, in
order.  The `error_sentinel` exception is the `thrown` outcome; C++
undefined behaviour or an uncaught exception (out-of-range vector access,
null-pointer dereference, `std::invalid_argument` from `primary`) is
`crash`.  Recursion is bounded by explicit fuel; `fuelOut` means the fuel
ran out, and an execution that yields `fuelOut` for *every* fuel models
non-termination of the C++ loop. -/

structure PS where
  i : Nat
  errs : List Diag
  deriving DecidableEq, Repr

inductive POut (α : Type) where
  | ok (a : α) (s : PS)
  | thrown (s : PS)
  | crash
  | fuelOut

def pbind {α β : Type} : POut α → (α → PS → POut β) → POut β
  | .ok a s, k => k a s
  | .thrown s, _ => .thrown s
  | .crash, _ => .crash
  | .fuelOut, _ => .fuelOut

def dummyTok : Token := ⟨0, 0, 0, .unknown, []⟩

/-- `m_toks[i]` (guarded at all call sites). -/
def tkAt (tk : List Token) (i : Nat) : Token := tk.getD i dummyTok

/-- `parser_impl::is_at_end`. -/
def atEndP (tk : List Token) (s : PS) : Bool := tk.length ≤ s.i

def addErrTok (code : ErrCode) (t : Token) (s : PS) : PS :=
  { s with errs := s.errs ++ [mkDiag code t] }

/-- `report_error` on a token: register through the sink, then throw the
`error_sentinel`. -/
def throwTok {α : Type} (code : ErrCode) (t : Token) (s : PS) : POut α :=
  .thrown (addErrTok code t s)

/-- `report_error` on an AST node. -/
def throwInfo {α : Type} (code : ErrCode) (i : SourceInfo) (s : PS) : POut α :=
  .thrown { s with errs := s.errs ++ [⟨code, i.pos, i.len⟩] }

/-- `parser_impl::previous` (asserts `i > 0`; all call sites follow at
least one `consume`). -/
def previousT (tk : List Token) (s : PS) : Token := tkAt tk (s.i - 1)

/-- `parser_impl::current`: the current token, or report
`unexpected_end_of_input` at the previous token and throw. -/
def currentT (tk : List Token) (s : PS) : POut Token :=
  if s.i < tk.length then .ok (tkAt tk s.i) s
  else throwTok .unexpected_end_of_input (previousT tk s) s

/-- `parser_impl::consume`: asserts `!is_at_end()`; consuming at the end is
undefined behaviour (`crash`). -/
def consumeT (tk : List Token) (s : PS) : POut Token :=
  if s.i < tk.length then .ok (tkAt tk s.i) { s with i := s.i + 1 } else .crash

/-- `parser_impl::check_semi`. -/
def checkSemiP (tk : List Token) (s : PS) : POut Unit :=
  if atEndP tk s then throwTok .unexpected_end_of_input (previousT tk s) s
  else if (tkAt tk s.i).kind ≠ .symbol_semicolon then
    pbind (consumeT tk s) (fun t s => throwTok .expected_semi t s)
  else .ok () s

/-- The synchronizing kinds of `parser_impl::synchronize`. -/
def syncKinds : List TokKind :=
  [.keyword_if, .keyword_else, .keyword_then, .keyword_fn, .keyword_let,
   .keyword_mut, .keyword_ret, .keyword_import, .keyword_export,
   .keyword_module, .keyword_as, .keyword_pub, .keyword_assert,
   .symbol_closebrace, .symbol_closeparen, .symbol_closebracket]

/-- The loop of `parser_impl::synchronize`; every iteration either consumes
one token or returns, so the fuel supplied by `synchronize` suffices. -/
def syncLoop (tk : List Token) : Nat → PS → PS
  | 0, s => s
  | f + 1, s =>
    if atEndP tk s then s
    else
      let t := tkAt tk s.i
      if t.kind = .symbol_semicolon then { s with i := s.i + 1 }
      else if syncKinds.contains t.kind then s
      else syncLoop tk f { s with i := s.i + 1 }

/-- `parser_impl::synchronize`: skip to a semicolon (consumed) or a
synchronizing keyword/closer (not consumed). -/
def synchronize (tk : List Token) (s : PS) : PS :=
  syncLoop tk (tk.length + 1 - s.i) s

/-- Modelled from the spec: `token::is_assignment` is declared in
src/core/lexer.hh but its definition is not under src/.  Spec §4.2
precedence level 1 lists the assignment operators:
`=, +=, -=, *=, /=, %=, <<=, >>=, &=, |=, ^=`. -/
def isAssignmentK (k : TokKind) : Bool :=
  k = .symbol_equal || k = .symbol_plusequal || k = .symbol_hyphenequal ||
  k = .symbol_starequal || k = .symbol_forwardslashequal ||
  k = .symbol_percentequal || k = .symbol_ltltequal || k = .symbol_gtgtequal ||
  k = .symbol_poundequal || k = .symbol_pipeequal || k = .symbol_caretequal

/-- `builtin_words` from src/core/parser.cc. -/
def builtinWords : List (List Char) :=
  ["i8".data, "i16".data, "i32".data, "i64".data, "u8".data, "u16".data,
   "u32".data, "u64".data, "f32".data, "f64".data, "bool".data]

/-- `is_builtin` from src/core/parser.cc. -/
def isBuiltinTok (t : Token) : Bool := builtinWords.contains t.raw

def digitVal (c : Char) : Nat := c.toNat - '0'.toNat

def digitsValue : List Char → Nat → Nat
  | [], acc => acc
  | c :: r, acc => digitsValue r (acc * 10 + digitVal c)

/-- `std::from_chars` into an `int`: parse an optional minus sign and a
maximal leading digit run; `none` models `std::errc::invalid_argument`
(no digits).  The value is unbounded here; the caller performs the
`result_out_of_range` check against the `int` range. -/
def fromCharsInt (r : List Char) : Option Int :=
  match r with
  | '-' :: rest =>
    let ds := rest.takeWhile isDigitC
    if ds.isEmpty then none else some (-(digitsValue ds 0 : Int))
  | _ =>
    let ds := r.takeWhile isDigitC
    if ds.isEmpty then none else some ((digitsValue ds 0 : Int))

/-- `std::stof` followed by the implicit float→int conversion in
`ast::int_literal(tok.info(), number)` (src/core/parser.cc line 403):
for a lexeme of the form `digits[.digits]` this truncation yields the
integer part.  `none` models the `std::invalid_argument` throw.  This
branch is unreachable from `lex` (the lexer never produces a
`literal_float` token), so float rounding and the `f32` range check are
not modelled further. -/
def stofTrunc (r : List Char) : Option Nat :=
  let ds := r.takeWhile isDigitC
  if ds.isEmpty then none else some (digitsValue ds 0)

/-- The builtin/user-defined leaf of `parser_impl::finish_type`
(src/core/parser.cc lines 682-726).  `raw()[0]` on an empty view is
modelled as reading the NUL terminator. -/
def typeLeaf (id : Token) : TypeNode :=
  if id.raw == "bool".data then .builtin id.info 1 .boolean
  else
    let h := id.raw.headD '\x00'
    if h = 'i' || h = 'u' then
      let width := id.raw.tail
      let nt := if h = 'i' then NumericType.integer else NumericType.unsigned_integer
      if width == "8".data then .builtin id.info 8 nt
      else if width == "16".data then .builtin id.info 16 nt
      else if width == "32".data then .builtin id.info 32 nt
      else if width == "64".data then .builtin id.info 64 nt
      else .user_defined id.info id.raw
    else if h = 'f' then
      let width := id.raw.tail
      if width == "32".data then .builtin id.info 32 .floating_point
      else if width == "64".data then .builtin id.info 64 .floating_point
      else .user_defined id.info id.raw
    else .user_defined id.info id.raw

mutual

/-- `parser_impl::primary` (src/core/parser.cc lines 377-451). -/
def primary (tk : List Token) : Nat → PS → POut Expr
  | 0, _ => .fuelOut
  | f + 1, s =>
    pbind (currentT tk s) fun t s =>
    if t.kind = .literal_number then
      pbind (consumeT tk s) fun tok s =>
      match fromCharsInt tok.raw with
      | none => .crash
      | some n =>
        if n > 2147483647 ∨ n < -2147483648 then
          throwTok .number_literal_too_large tok s
        else .ok (.int_lit tok.info n) s
    else if t.kind = .literal_float then
      pbind (consumeT tk s) fun tok s =>
      match stofTrunc tok.raw with
      | none => .crash
      | some n => .ok (.int_lit tok.info (n : Int)) s
    else if t.kind = .literal_bool then
      pbind (consumeT tk s) fun tok s =>
      .ok (.bool_lit tok.info (tok.raw == "true".data)) s
    else if t.kind = .literal_char then
      pbind (consumeT tk s) fun tok s =>
      if tok.raw.length = 0 then .crash
      else
        let chars := (tok.raw.drop 1).take (tok.raw.length - 2)
        match chars.dropWhile isSpaceC with
        | [] => .ok (.char_lit tok.info '\x00') s
        | ch :: rest =>
          if rest.length ≠ 0 then throwTok .invalid_char_literal tok s
          else .ok (.char_lit tok.info ch) s
    else if t.kind = .literal_string then
      pbind (consumeT tk s) fun tok s =>
      if tok.raw.length = 0 then .crash
      else .ok (.string_lit tok.info ((tok.raw.drop 1).take (tok.raw.length - 2))) s
    else if t.kind = .identifier then
      pbind (consumeT tk s) fun tok s =>
      .ok (.ident tok.info tok.raw) s
    else grouping tk f s

/-- `parser_impl::grouping` (lines 327-351). -/
def grouping (tk : List Token) : Nat → PS → POut Expr
  | 0, _ => .fuelOut
  | f + 1, s =>
    pbind (currentT tk s) fun t s =>
    if t.kind = .symbol_openparen then
      pbind (consumeT tk s) fun bg s =>
      pbind (expression tk f s) fun e s =>
      pbind (currentT tk s) fun t2 s =>
      if t2.kind ≠ .symbol_closeparen then
        pbind (expression tk f s) fun _ s => throwTok .unclosed_paren bg s
      else
        pbind (consumeT tk s) fun _ s => .ok e s
    else if t.kind = .symbol_openbrace then block tk f s
    else pbind (consumeT tk s) fun bad s => throwTok .expected_expression bad s

/-- `parser_impl::block` (lines 353-375). -/
def block (tk : List Token) : Nat → PS → POut Expr
  | 0, _ => .fuelOut
  | f + 1, s =>
    pbind (currentT tk s) fun t s =>
    if t.kind ≠ .symbol_openbrace then
      pbind (consumeT tk s) fun bad s => throwTok .expected_opening_brace bad s
    else
      pbind (consumeT tk s) fun start s =>
      pbind (blockLoop tk f [] s) fun stmts s =>
      pbind (consumeT tk s) fun close s =>
      .ok (.block (srcInfoFrom start.info close.info) stmts
            (.implied (srcInfoWithLen start.info 1))) s

/-- The statement loop of `parser_impl::block`, with its
try/catch-and-synchronize. -/
def blockLoop (tk : List Token) : Nat → List (Option Stmt) → PS →
    POut (List (Option Stmt))
  | 0, _, _ => .fuelOut
  | f + 1, acc, s =>
    if atEndP tk s then .ok acc s
    else if (tkAt tk s.i).kind = .symbol_closebrace then .ok acc s
    else
      match statement tk f s with
      | .ok st? s' => blockLoop tk f (acc ++ [st?]) s'
      | .thrown s' => blockLoop tk f acc (synchronize tk s')
      | .crash => .crash
      | .fuelOut => .fuelOut

/-- `parser_impl::finish_call` (lines 301-325). -/
def finish_call (tk : List Token) : Nat → Expr → PS → POut Expr
  | 0, _, _ => .fuelOut
  | f + 1, callee, s =>
    pbind (consumeT tk s) fun _ s =>
    pbind (fcArgsLoop tk f [] s) fun args s =>
    pbind (consumeT tk s) fun close s =>
    .ok (.call (srcInfoFrom callee.info close.info) callee args) s

/-- The argument loop of `finish_call`. -/
def fcArgsLoop (tk : List Token) : Nat → List Expr → PS → POut (List Expr)
  | 0, _, _ => .fuelOut
  | f + 1, acc, s =>
    if atEndP tk s then .ok acc s
    else if (tkAt tk s.i).kind = .symbol_closeparen then .ok acc s
    else
      pbind (expression tk f s) fun a s =>
      pbind (currentT tk s) fun t s =>
      if t.kind = .symbol_comma then
        pbind (consumeT tk s) fun _ s => fcArgsLoop tk f (acc ++ [a]) s
      else if t.kind = .symbol_closeparen then fcArgsLoop tk f (acc ++ [a]) s
      else pbind (consumeT tk s) fun bad s => throwTok .expected_comma bad s

/-- `parser_impl::call` (lines 453-513). -/
def call (tk : List Token) : Nat → PS → POut Expr
  | 0, _ => .fuelOut
  | f + 1, s =>
    pbind (primary tk f s) fun e s => callLoop tk f e s

/-- The postfix loop of `parser_impl::call`. -/
def callLoop (tk : List Token) : Nat → Expr → PS → POut Expr
  | 0, _, _ => .fuelOut
  | f + 1, e, s =>
    if atEndP tk s then .ok e s
    else
      let k := (tkAt tk s.i).kind
      if k = .symbol_openparen then
        pbind (finish_call tk f e s) fun e' s => callLoop tk f e' s
      else if k = .symbol_openbracket then
        pbind (consumeT tk s) fun _ s =>
        pbind (expression tk f s) fun idx s =>
        if atEndP tk s then
          throwTok .unexpected_end_of_input (previousT tk s) s
        else if (tkAt tk s.i).kind = .symbol_closebracket then
          pbind (consumeT tk s) fun close s =>
          callLoop tk f (.index (srcInfoFrom e.info close.info) e idx) s
        else
          pbind (consumeT tk s) fun bad s => throwTok .expected_closing_bracket bad s
      else if k = .symbol_dot then
        pbind (consumeT tk s) fun _ s =>
        if atEndP tk s then
          throwTok .unexpected_end_of_input (previousT tk s) s
        else if (tkAt tk s.i).kind ≠ .identifier then
          pbind (consumeT tk s) fun bad s => throwTok .unexpected_tok bad s
        else
          pbind (consumeT tk s) fun id s =>
          callLoop tk f (.field_access (srcInfoFrom e.info id.info) e id.raw) s
      else .ok e s

/-- `parser_impl::unary` (lines 515-525), via the `parse_unary` template. -/
def unary (tk : List Token) : Nat → PS → POut Expr
  | 0, _ => .fuelOut
  | f + 1, s =>
    if !atEndP tk s &&
        [TokKind.symbol_tilde, .symbol_star, .symbol_pound, .symbol_at,
         .symbol_plus, .symbol_hyphen, .keyword_clone].contains (tkAt tk s.i).kind then
      pbind (consumeT tk s) fun op s =>
      pbind (unary tk f s) fun rhs s =>
      .ok (.unary (srcInfoFrom op.info rhs.info) op.kind rhs) s
    else call tk f s

/-- `parser_impl::multiplication`, via the `parse_binary` template. -/
def multiplication (tk : List Token) : Nat → PS → POut Expr
  | 0, _ => .fuelOut
  | f + 1, s => pbind (unary tk f s) fun e s => mulLoop tk f e s

def mulLoop (tk : List Token) : Nat → Expr → PS → POut Expr
  | 0, _, _ => .fuelOut
  | f + 1, e, s =>
    if !atEndP tk s &&
        [TokKind.symbol_star, .symbol_forwardslash,
         .symbol_percent].contains (tkAt tk s.i).kind then
      pbind (consumeT tk s) fun op s =>
      pbind (unary tk f s) fun rhs s =>
      mulLoop tk f (.binary (srcInfoFrom e.info rhs.info) op.kind e rhs) s
    else .ok e s

/-- `parser_impl::addition`. -/
def addition (tk : List Token) : Nat → PS → POut Expr
  | 0, _ => .fuelOut
  | f + 1, s => pbind (multiplication tk f s) fun e s => addLoop tk f e s

def addLoop (tk : List Token) : Nat → Expr → PS → POut Expr
  | 0, _, _ => .fuelOut
  | f + 1, e, s =>
    if !atEndP tk s &&
        [TokKind.symbol_plus, .symbol_hyphen].contains (tkAt tk s.i).kind then
      pbind (consumeT tk s) fun op s =>
      pbind (multiplication tk f s) fun rhs s =>
      addLoop tk f (.binary (srcInfoFrom e.info rhs.info) op.kind e rhs) s
    else .ok e s

/-- `parser_impl::bitshift`. -/
def bitshift (tk : List Token) : Nat → PS → POut Expr
  | 0, _ => .fuelOut
  | f + 1, s => pbind (addition tk f s) fun e s => shiftLoop tk f e s

def shiftLoop (tk : List Token) : Nat → Expr → PS → POut Expr
  | 0, _, _ => .fuelOut
  | f + 1, e, s =>
    if !atEndP tk s &&
        [TokKind.symbol_gtgt, .symbol_ltlt].contains (tkAt tk s.i).kind then
      pbind (consumeT tk s) fun op s =>
      pbind (addition tk f s) fun rhs s =>
      shiftLoop tk f (.binary (srcInfoFrom e.info rhs.info) op.kind e rhs) s
    else .ok e s

/-- `parser_impl::bitwise_and`. -/
def bitwise_and (tk : List Token) : Nat → PS → POut Expr
  | 0, _ => .fuelOut
  | f + 1, s => pbind (bitshift tk f s) fun e s => bandLoop tk f e s

def bandLoop (tk : List Token) : Nat → Expr → PS → POut Expr
  | 0, _, _ => .fuelOut
  | f + 1, e, s =>
    if !atEndP tk s && (tkAt tk s.i).kind = .symbol_pound then
      pbind (consumeT tk s) fun op s =>
      pbind (bitshift tk f s) fun rhs s =>
      bandLoop tk f (.binary (srcInfoFrom e.info rhs.info) op.kind e rhs) s
    else .ok e s

/-- `parser_impl::bitwise_xor`. -/
def bitwise_xor (tk : List Token) : Nat → PS → POut Expr
  | 0, _ => .fuelOut
  | f + 1, s => pbind (bitwise_and tk f s) fun e s => bxorLoop tk f e s

def bxorLoop (tk : List Token) : Nat → Expr → PS → POut Expr
  | 0, _, _ => .fuelOut
  | f + 1, e, s =>
    if !atEndP tk s && (tkAt tk s.i).kind = .symbol_caret then
      pbind (consumeT tk s) fun op s =>
      pbind (bitwise_and tk f s) fun rhs s =>
      bxorLoop tk f (.binary (srcInfoFrom e.info rhs.info) op.kind e rhs) s
    else .ok e s

/-- `parser_impl::bitwise_or`. -/
def bitwise_or (tk : List Token) : Nat → PS → POut Expr
  | 0, _ => .fuelOut
  | f + 1, s => pbind (bitwise_xor tk f s) fun e s => borLoop tk f e s

def borLoop (tk : List Token) : Nat → Expr → PS → POut Expr
  | 0, _, _ => .fuelOut
  | f + 1, e, s =>
    if !atEndP tk s && (tkAt tk s.i).kind = .symbol_pipe then
      pbind (consumeT tk s) fun op s =>
      pbind (bitwise_xor tk f s) fun rhs s =>
      borLoop tk f (.binary (srcInfoFrom e.info rhs.info) op.kind e rhs) s
    else .ok e s

/-- `parser_impl::relational`. -/
def relational (tk : List Token) : Nat → PS → POut Expr
  | 0, _ => .fuelOut
  | f + 1, s => pbind (bitwise_or tk f s) fun e s => relLoop tk f e s

def relLoop (tk : List Token) : Nat → Expr → PS → POut Expr
  | 0, _, _ => .fuelOut
  | f + 1, e, s =>
    if !atEndP tk s &&
        [TokKind.symbol_gt, .symbol_geq, .symbol_lt,
         .symbol_leq].contains (tkAt tk s.i).kind then
      pbind (consumeT tk s) fun op s =>
      pbind (bitwise_or tk f s) fun rhs s =>
      relLoop tk f (.binary (srcInfoFrom e.info rhs.info) op.kind e rhs) s
    else .ok e s

/-- `parser_impl::equality`. -/
def equality (tk : List Token) : Nat → PS → POut Expr
  | 0, _ => .fuelOut
  | f + 1, s => pbind (relational tk f s) fun e s => eqLoop tk f e s

def eqLoop (tk : List Token) : Nat → Expr → PS → POut Expr
  | 0, _, _ => .fuelOut
  | f + 1, e, s =>
    if !atEndP tk s &&
        [TokKind.symbol_equalequal, .symbol_bangequal].contains (tkAt tk s.i).kind then
      pbind (consumeT tk s) fun op s =>
      pbind (relational tk f s) fun rhs s =>
      eqLoop tk f (.binary (srcInfoFrom e.info rhs.info) op.kind e rhs) s
    else .ok e s

/-- `parser_impl::logical_not`, via the `parse_unary` template. -/
def logical_not (tk : List Token) : Nat → PS → POut Expr
  | 0, _ => .fuelOut
  | f + 1, s =>
    if !atEndP tk s && (tkAt tk s.i).kind = .keyword_not then
      pbind (consumeT tk s) fun op s =>
      pbind (logical_not tk f s) fun rhs s =>
      .ok (.unary (srcInfoFrom op.info rhs.info) op.kind rhs) s
    else equality tk f s

/-- `parser_impl::logical_and`. -/
def logical_and (tk : List Token) : Nat → PS → POut Expr
  | 0, _ => .fuelOut
  | f + 1, s => pbind (logical_not tk f s) fun e s => landLoop tk f e s

def landLoop (tk : List Token) : Nat → Expr → PS → POut Expr
  | 0, _, _ => .fuelOut
  | f + 1, e, s =>
    if !atEndP tk s && (tkAt tk s.i).kind = .keyword_and then
      pbind (consumeT tk s) fun op s =>
      pbind (logical_not tk f s) fun rhs s =>
      landLoop tk f (.binary (srcInfoFrom e.info rhs.info) op.kind e rhs) s
    else .ok e s

/-- `parser_impl::logical_xor`. -/
def logical_xor (tk : List Token) : Nat → PS → POut Expr
  | 0, _ => .fuelOut
  | f + 1, s => pbind (logical_and tk f s) fun e s => lxorLoop tk f e s

def lxorLoop (tk : List Token) : Nat → Expr → PS → POut Expr
  | 0, _, _ => .fuelOut
  | f + 1, e, s =>
    if !atEndP tk s && (tkAt tk s.i).kind = .keyword_xor then
      pbind (consumeT tk s) fun op s =>
      pbind (logical_and tk f s) fun rhs s =>
      lxorLoop tk f (.binary (srcInfoFrom e.info rhs.info) op.kind e rhs) s
    else .ok e s

/-- `parser_impl::logical_or`. -/
def logical_or (tk : List Token) : Nat → PS → POut Expr
  | 0, _ => .fuelOut
  | f + 1, s => pbind (logical_xor tk f s) fun e s => lorLoop tk f e s

def lorLoop (tk : List Token) : Nat → Expr → PS → POut Expr
  | 0, _, _ => .fuelOut
  | f + 1, e, s =>
    if !atEndP tk s && (tkAt tk s.i).kind = .keyword_or then
      pbind (consumeT tk s) fun op s =>
      pbind (logical_xor tk f s) fun rhs s =>
      lorLoop tk f (.binary (srcInfoFrom e.info rhs.info) op.kind e rhs) s
    else .ok e s

/-- `parser_impl::if_then` (lines 588-625). -/
def if_then (tk : List Token) : Nat → PS → POut Expr
  | 0, _ => .fuelOut
  | f + 1, s =>
    pbind (currentT tk s) fun t s =>
    if t.kind = .keyword_if then
      pbind (consumeT tk s) fun kwif s =>
      pbind (if_then tk f s) fun cond s =>
      pbind (currentT tk s) fun tthen s =>
      let isThen := tthen.kind = .keyword_then
      pbind (if isThen then pbind (consumeT tk s) (fun _ s => if_then tk f s)
             else block tk f s) fun tcl s =>
      pbind (currentT tk s) fun telse s =>
      if telse.kind = .keyword_else then
        pbind (consumeT tk s) fun _ s =>
        pbind (if isThen then if_then tk f s else block tk f s) fun fcl s =>
        .ok (.if_else (srcInfoFrom kwif.info fcl.info) cond tcl (some fcl)) s
      else if isThen then
        throwInfo .expected_else_after_then (srcInfoFrom kwif.info tcl.info) s
      else .ok (.if_else (srcInfoFrom kwif.info tcl.info) cond tcl none) s
    else logical_or tk f s

/-- `parser_impl::assignment` (lines 627-641). -/
def assignment (tk : List Token) : Nat → PS → POut Expr
  | 0, _ => .fuelOut
  | f + 1, s => pbind (if_then tk f s) fun e s => assignLoop tk f e s

def assignLoop (tk : List Token) : Nat → Expr → PS → POut Expr
  | 0, _, _ => .fuelOut
  | f + 1, e, s =>
    if !atEndP tk s && isAssignmentK (tkAt tk s.i).kind then
      pbind (consumeT tk s) fun op s =>
      pbind (assignment tk f s) fun rhs s =>
      assignLoop tk f (.binary (srcInfoFrom e.info rhs.info) op.kind e rhs) s
    else .ok e s

/-- `parser_impl::expression`. -/
def expression (tk : List Token) : Nat → PS → POut Expr
  | 0, _ => .fuelOut
  | f + 1, s => assignment tk f s

/-- `parser_impl::finish_type` (lines 645-729). -/
def finish_type (tk : List Token) : Nat → PS → POut TypeNode
  | 0, _ => .fuelOut
  | f + 1, s =>
    pbind (currentT tk s) fun t s =>
    if t.kind = .symbol_star then
      pbind (consumeT tk s) fun star s =>
      pbind (currentT tk s) fun t2 s =>
      if t2.kind = .keyword_mut then
        pbind (consumeT tk s) fun _ s =>
        pbind (finish_type tk f s) fun ty s =>
        .ok (.pointer (srcInfoFrom star.info ty.info) true ty) s
      else
        pbind (finish_type tk f s) fun ty s =>
        .ok (.pointer (srcInfoFrom star.info ty.info) false ty) s
    else if t.kind = .symbol_openbracket then
      pbind (consumeT tk s) fun ob s =>
      pbind (currentT tk s) fun t2 s =>
      if t2.kind ≠ .symbol_closebracket then
        pbind (consumeT tk s) fun bad s => throwTok .unexpected_tok bad s
      else
        pbind (consumeT tk s) fun _ s =>
        pbind (finish_type tk f s) fun ty s =>
        .ok (.array (srcInfoFrom ob.info ty.info) 0 ty) s
    else if t.kind = .identifier then
      pbind (consumeT tk s) fun id s => .ok (typeLeaf id) s
    else throwTok .expected_type t s

/-- The shared reference-prefix body of `parser_impl::type_with_colon` and
`parser_impl::type_without_colon` (the C++ duplicates this code verbatim
in both functions). -/
def typeRef (tk : List Token) : Nat → PS → POut TypeNode
  | 0, _ => .fuelOut
  | f + 1, s =>
    pbind (currentT tk s) fun t s =>
    if t.kind = .symbol_pound then
      pbind (consumeT tk s) fun pd s =>
      pbind (currentT tk s) fun t2 s =>
      if t2.kind = .keyword_mut then
        pbind (consumeT tk s) fun _ s =>
        pbind (finish_type tk f s) fun ty s =>
        .ok (.reference (srcInfoFrom pd.info ty.info) true ty) s
      else
        pbind (finish_type tk f s) fun ty s =>
        .ok (.reference (srcInfoFrom pd.info ty.info) false ty) s
    else finish_type tk f s

/-- `parser_impl::type_with_colon` (lines 731-760). -/
def type_with_colon (tk : List Token) : Nat → PS → POut TypeNode
  | 0, _ => .fuelOut
  | f + 1, s =>
    pbind (currentT tk s) fun t s =>
    if t.kind ≠ .symbol_colon then
      pbind (consumeT tk s) fun bad s => throwTok .unexpected_tok bad s
    else
      pbind (consumeT tk s) fun _ s => typeRef tk f s

/-- `parser_impl::type_without_colon` (lines 762-785). -/
def type_without_colon (tk : List Token) : Nat → PS → POut TypeNode
  | 0, _ => .fuelOut
  | f + 1, s => typeRef tk f s

/-- `parser_impl::variable` (lines 787-826), parsing `let`/`mut`
statements. -/
def variable_stmt (tk : List Token) : Nat → PS → POut Stmt
  | 0, _ => .fuelOut
  | f + 1, s =>
    pbind (consumeT tk s) fun bg s =>
    pbind (currentT tk s) fun t s =>
    if t.kind ≠ .identifier then
      pbind (consumeT tk s) fun bad s => throwTok .expected_identifier bad s
    else
      pbind (consumeT tk s) fun id s =>
      pbind (currentT tk s) fun t2 s =>
      pbind (if t2.kind = .symbol_colon then type_with_colon tk f s
             else .ok (.implied id.info) s) fun vty s =>
      pbind (currentT tk s) fun t3 s =>
      if t3.kind ≠ .symbol_equal then
        pbind (consumeT tk s) fun bad s => throwTok .unexpected_tok bad s
      else
        pbind (consumeT tk s) fun _ s =>
        pbind (expression tk f s) fun e s =>
        pbind (checkSemiP tk s) fun _ s =>
        pbind (consumeT tk s) fun semi s =>
        if bg.kind = .keyword_let then
          .ok (.letS (srcInfoFrom bg.info semi.info) e vty id.raw) s
        else
          .ok (.mutS (srcInfoFrom bg.info semi.info) e vty id.raw) s

/-- `parser_impl::ret` (lines 828-843). -/
def ret_stmt (tk : List Token) : Nat → PS → POut Stmt
  | 0, _ => .fuelOut
  | f + 1, s =>
    pbind (consumeT tk s) fun rt s =>
    pbind (currentT tk s) fun t s =>
    pbind (if t.kind ≠ .symbol_semicolon then
             pbind (expression tk f s) (fun e s => .ok (some e) s)
           else .ok none s) fun e? s =>
    pbind (currentT tk s) fun t2 s =>
    if t2.kind ≠ .symbol_semicolon then
      pbind (consumeT tk s) fun bad s => throwTok .expected_semi bad s
    else
      pbind (consumeT tk s) fun semi s =>
      .ok (.retS (srcInfoFrom rt.info semi.info) e?) s

/-- `parser_impl::loop` (lines 845-862). -/
def loop_stmt (tk : List Token) : Nat → PS → POut Stmt
  | 0, _ => .fuelOut
  | f + 1, s =>
    pbind (consumeT tk s) fun bg s =>
    if bg.kind = .keyword_loop then
      pbind (expression tk f s) fun body s =>
      .ok (.loopS (srcInfoFrom bg.info body.info) none body) s
    else
      pbind (expression tk f s) fun cond s =>
      pbind (expression tk f s) fun body s =>
      .ok (.loopS (srcInfoFrom bg.info body.info) (some cond) body) s

/-- `parser_impl::expr_statement` (lines 868-884). -/
def expr_statement (tk : List Token) : Nat → PS → POut Stmt
  | 0, _ => .fuelOut
  | f + 1, s =>
    pbind (expression tk f s) fun e s =>
    pbind (currentT tk s) fun t s =>
    if t.kind = .symbol_semicolon then
      pbind (consumeT tk s) fun semi s =>
      .ok (.expr_stmt (srcInfoFrom e.info semi.info) e) s
    else if (previousT tk s).kind = .symbol_closebrace then
      .ok (.expr_stmt e.info e) s
    else throwTok .expected_semi t s

/-- `parser_impl::statement` (lines 886-908).  `break_continue` and
`assert_stmt` are the stubs `return nullptr;`: they consume nothing and
produce a null statement (`none`). -/
def statement (tk : List Token) : Nat → PS → POut (Option Stmt)
  | 0, _ => .fuelOut
  | f + 1, s =>
    pbind (currentT tk s) fun t s =>
    if t.kind = .keyword_let ∨ t.kind = .keyword_mut then
      pbind (variable_stmt tk f s) fun st s => .ok (some st) s
    else if t.kind = .keyword_while ∨ t.kind = .keyword_for ∨
        t.kind = .keyword_loop then
      pbind (loop_stmt tk f s) fun st s => .ok (some st) s
    else if t.kind = .keyword_ret then
      pbind (ret_stmt tk f s) fun st s => .ok (some st) s
    else if t.kind = .keyword_break ∨ t.kind = .keyword_continue then
      .ok none s
    else if t.kind = .keyword_assert then
      .ok none s
    else
      pbind (expr_statement tk f s) fun st s => .ok (some st) s

/-- `parser_impl::module_decl` (lines 912-933). -/
def module_decl (tk : List Token) : Nat → PS → POut Decl
  | 0, _ => .fuelOut
  | _ + 1, s =>
    pbind (consumeT tk s) fun bg s =>
    pbind (currentT tk s) fun t s =>
    if t.kind ≠ .identifier then
      pbind (consumeT tk s) fun bad s => throwTok .expected_identifier bad s
    else
      pbind (consumeT tk s) fun name s =>
      let s := if isBuiltinTok name then addErrTok .unexpected_builtin name s else s
      pbind (checkSemiP tk s) fun _ s =>
      pbind (consumeT tk s) fun semi s =>
      .ok (.module_decl (srcInfoFrom bg.info semi.info) name.raw) s

/-- `parser_impl::export_decl` (lines 935-945).  `declaration` yields a
null pointer for `import` declarations; `decl->is(...)` then dereferences
it (`crash`). -/
def export_decl (tk : List Token) : Nat → PS → POut Decl
  | 0, _ => .fuelOut
  | f + 1, s =>
    pbind (consumeT tk s) fun bg s =>
    pbind (declaration tk f s) fun d? s =>
    match d? with
    | none => .crash
    | some d =>
      if d.kindOf = .declaration_export then
        throwInfo .cannot_export_export d.info s
      else .ok (.export_decl (srcInfoFrom bg.info d.info) d) s

/-- `parser_impl::const_static` (lines 947-992). -/
def const_static (tk : List Token) : Nat → PS → POut Decl
  | 0, _ => .fuelOut
  | f + 1, s =>
    pbind (consumeT tk s) fun bg s =>
    pbind (currentT tk s) fun t s =>
    if t.kind ≠ .identifier then
      pbind (consumeT tk s) fun bad s => throwTok .expected_identifier bad s
    else
      pbind (consumeT tk s) fun id s =>
      let s := if isBuiltinTok id then addErrTok .unexpected_builtin id s else s
      pbind (currentT tk s) fun t2 s =>
      pbind (if t2.kind = .symbol_colon then type_with_colon tk f s
             else .ok (.implied id.info) s) fun vty s =>
      pbind (currentT tk s) fun t3 s =>
      if t3.kind ≠ .symbol_equal then
        pbind (consumeT tk s) fun bad s => throwTok .unexpected_tok bad s
      else
        pbind (consumeT tk s) fun _ s =>
        pbind (expression tk f s) fun e s =>
        pbind (checkSemiP tk s) fun _ s =>
        pbind (consumeT tk s) fun semi s =>
        if bg.kind = .keyword_const then
          .ok (.const_decl (srcInfoFrom bg.info semi.info) id.raw e vty) s
        else
          .ok (.static_decl (srcInfoFrom bg.info semi.info) id.raw e vty) s

/-- `parser_impl::type_decl` (lines 994-1024). -/
def type_decl (tk : List Token) : Nat → PS → POut Decl
  | 0, _ => .fuelOut
  | f + 1, s =>
    pbind (consumeT tk s) fun bg s =>
    pbind (currentT tk s) fun t s =>
    if t.kind ≠ .identifier then
      pbind (consumeT tk s) fun bad s => throwTok .expected_identifier bad s
    else
      pbind (consumeT tk s) fun name s =>
      let s := if isBuiltinTok name then addErrTok .unexpected_builtin name s else s
      pbind (currentT tk s) fun t2 s =>
      if t2.kind ≠ .symbol_equal then
        pbind (consumeT tk s) fun bad s => throwTok .unexpected_tok bad s
      else
        pbind (consumeT tk s) fun _ s =>
        pbind (type_without_colon tk f s) fun ty s =>
        pbind (checkSemiP tk s) fun _ s =>
        pbind (consumeT tk s) fun semi s =>
        .ok (.type_decl (srcInfoFrom bg.info semi.info) ty name.raw) s

/-- `parser_impl::fn` (lines 1026-1088). -/
def fn_decl (tk : List Token) : Nat → PS → POut Decl
  | 0, _ => .fuelOut
  | f + 1, s =>
    pbind (consumeT tk s) fun bg s =>
    pbind (currentT tk s) fun t s =>
    if t.kind ≠ .identifier then
      pbind (consumeT tk s) fun bad s => throwTok .expected_identifier bad s
    else
      pbind (consumeT tk s) fun name s =>
      let s := if isBuiltinTok name then addErrTok .unexpected_builtin name s else s
      pbind (currentT tk s) fun t2 s =>
      if t2.kind ≠ .symbol_openparen then
        pbind (consumeT tk s) fun bad s => throwTok .unexpected_tok bad s
      else
        pbind (consumeT tk s) fun _ s =>
        pbind (fnArgsLoop tk f [] s) fun args s =>
        pbind (consumeT tk s) fun _ s =>
        pbind (currentT tk s) fun t3 s =>
        pbind (if t3.kind = .symbol_colon then type_with_colon tk f s
               else .ok (.void_type (previousT tk s).info) s) fun rty s =>
        pbind (block tk f s) fun body s =>
        .ok (.fn (srcInfoFrom bg.info body.info) name.raw args rty body) s

/-- The argument loop of `parser_impl::fn`. -/
def fnArgsLoop (tk : List Token) : Nat → List ArgDecl → PS → POut (List ArgDecl)
  | 0, _, _ => .fuelOut
  | f + 1, acc, s =>
    pbind (currentT tk s) fun t s =>
    if t.kind = .symbol_closeparen then .ok acc s
    else if t.kind ≠ .identifier then
      pbind (consumeT tk s) fun bad s => throwTok .expected_identifier bad s
    else
      pbind (consumeT tk s) fun an s =>
      pbind (currentT tk s) fun t2 s =>
      if t2.kind ≠ .symbol_colon then
        pbind (consumeT tk s) fun bad s => throwTok .unexpected_tok bad s
      else
        pbind (type_with_colon tk f s) fun aty s =>
        let arg : ArgDecl := ⟨srcInfoFrom an.info aty.info, an.raw, aty⟩
        pbind (currentT tk s) fun t3 s =>
        if t3.kind ≠ .symbol_closeparen then
          if t3.kind ≠ .symbol_comma then
            pbind (consumeT tk s) fun bad s => throwTok .expected_comma bad s
          else
            pbind (consumeT tk s) fun _ s => fnArgsLoop tk f (acc ++ [arg]) s
        else fnArgsLoop tk f (acc ++ [arg]) s

/-- `parser_impl::declaration` (lines 1090-1108).  The `import` branch is
the stub `return nullptr;` (no token consumed). -/
def declaration (tk : List Token) : Nat → PS → POut (Option Decl)
  | 0, _ => .fuelOut
  | f + 1, s =>
    pbind (currentT tk s) fun t s =>
    match t.kind with
    | .keyword_const => pbind (const_static tk f s) fun d s => .ok (some d) s
    | .keyword_static => pbind (const_static tk f s) fun d s => .ok (some d) s
    | .keyword_fn => pbind (fn_decl tk f s) fun d s => .ok (some d) s
    | .keyword_import => .ok none s
    | .keyword_module => pbind (module_decl tk f s) fun d s => .ok (some d) s
    | .keyword_export => pbind (export_decl tk f s) fun d s => .ok (some d) s
    | .keyword_type => pbind (type_decl tk f s) fun d s => .ok (some d) s
    | _ => pbind (consumeT tk s) fun bad s => throwTok .expected_declaration bad s

/-- The main loop of `parser_impl::parse` (lines 1110-1136), with its
try/catch-and-synchronize and the duplicate-module check. -/
def parseLoop (tk : List Token) : Nat → List Decl → Bool → PS → POut Program
  | 0, _, _, _ => .fuelOut
  | f + 1, acc, hasModule, s =>
    if atEndP tk s then .ok ⟨acc⟩ s
    else
      match declaration tk f s with
      | .ok none _ => .crash
      | .ok (some d) s' =>
        if d.kindOf = .declaration_module then
          if hasModule then
            parseLoop tk f acc hasModule
              (synchronize tk
                { s' with errs := s'.errs ++ [⟨.duplicate_module, d.info.pos, d.info.len⟩] })
          else parseLoop tk f (acc ++ [d]) true s'
        else parseLoop tk f (acc ++ [d]) hasModule s'
      | .thrown s' => parseLoop tk f acc hasModule (synchronize tk s')
      | .crash => .crash
      | .fuelOut => .fuelOut

end

/-- `core::parse` with explicit fuel. -/
def parseF (tk : List Token) (fuel : Nat) : POut Program :=
  parseLoop tk fuel [] false ⟨0, []⟩

/-- `core::parse`: each fuel layer corresponds to one level of the C++
call/loop structure; `64 * (length + 2)` covers any terminating run. -/
def parse (tk : List Token) : POut Program :=
  parseF tk (64 * (tk.length + 2))

/-! ## The type model (src/ast/detail/types.hh, `ast::type_data`) -/

/-- `ast::type_data::type_modifiers`. -/
inductive TypeModifier where
  | ref
  | mut_ref
  | ptr
  | mut_ptr
  | array
  deriving DecidableEq, Repr

/-- `ast::type_data::type_base`. -/
inductive TypeBase where
  | boolean
  | integer
  | unsigned_integer
  | floating_point
  | user_defined
  | implied
  | void_type
  | error_type
  deriving DecidableEq, Repr

/-- The `std::variant<std::size_t, std::string>` payload. -/
inductive TypePayload where
  | precision (n : Nat)
  | name (s : List Char)
  deriving DecidableEq, Repr

/-- `ast::type_data`. -/
structure TypeData where
  modifiers : List TypeModifier
  base : TypeBase
  payload : TypePayload
  deriving DecidableEq, Repr

/-- The `error_type` helper class of src/core/typechecker.cc:
`type_data({}, error_type, 0)`. -/
def errorTypeTD : TypeData := ⟨[], .error_type, .precision 0⟩

/-- `ast::type_data::operator==` (src/ast/detail/types.hh lines 119-132):
either side being `error_type` makes the comparison true; otherwise the
modifier sequences, payloads and bases are compared memberwise. -/
def tdEq (a b : TypeData) : Bool :=
  if a.base = .error_type then true
  else if b.base = .error_type then true
  else a.modifiers == b.modifiers && a.payload == b.payload && a.base == b.base

/-- `ast::type_data::is_builtin`. -/
def isBuiltinTD (t : TypeData) : Bool :=
  t.base ≠ .implied && t.base ≠ .void_type && t.base ≠ .user_defined

/-- `precision() <= precision()` on the payloads.  The C++
`std::get<std::size_t>` would throw for a string payload; string payloads
occur only together with the `user_defined` base, which `is_builtin`
rules out before this comparison is reached. -/
def payloadLe : TypePayload → TypePayload → Bool
  | .precision a, .precision b => a ≤ b
  | _, _ => false

/-- `typechecker::can_promote` (src/core/typechecker.cc lines 257-269). -/
def canPromote (src dst : TypeData) : Bool :=
  if isBuiltinTD src then
    if src.base = dst.base then payloadLe src.payload dst.payload else false
  else false

/-- The type-level content of `typechecker::binary_convert`
(lines 236-255): the promoted type, plus whether `mismatched_types`
was reported. -/
def binaryConvertTD (a b : TypeData) : TypeData × Bool :=
  if canPromote a b then (b, false)
  else if canPromote b a then (a, false)
  else (errorTypeTD, true)

/-- The result of `binary_convert` viewed as the promotion function of the
spec: whichever of the two operands the other promotes to, or the error
type. -/
def promoteTD (a b : TypeData) : TypeData := (binaryConvertTD a b).1

/-- "Numeric type" in the sense of the spec's promotion rules: no
modifiers, an integer/unsigned/float base, and a legal bit-width for that
base. -/
def isNumericTD (t : TypeData) : Bool :=
  t.modifiers.isEmpty &&
  match t.base, t.payload with
  | .integer, .precision w => [8, 16, 32, 64].contains w
  | .unsigned_integer, .precision w => [8, 16, 32, 64].contains w
  | .floating_point, .precision w => [32, 64].contains w
  | _, _ => false

/-- Outcome of the `symbol_star` case of `typechecker::visit(ast::unary&)`
(src/core/typechecker.cc lines 415-425): `undef` models `front()` on an
empty modifier deque (undefined behaviour). -/
inductive StarOut where
  | result (t : TypeData) (reported : Bool)
  | undef
  deriving DecidableEq, Repr

/-- The `symbol_star` case of `typechecker::visit(ast::unary&)`, as a
function of the operand's computed type: report
`dereference_requires_pointer_type` when
`front() != mut_ptr || front() != ptr`, and return the operand type
(unchanged) either way. -/
def visitUnaryStar (t : TypeData) : StarOut :=
  match t.modifiers with
  | [] => .undef
  | m :: _ => .result t ((m != TypeModifier.mut_ptr) || (m != TypeModifier.ptr))

def prependMod (m : TypeModifier) (t : TypeData) : TypeData :=
  { t with modifiers := m :: t.modifiers }

def baseOfNumeric : NumericType → TypeBase
  | .boolean => .boolean
  | .integer => .integer
  | .unsigned_integer => .unsigned_integer
  | .floating_point => .floating_point

/-- The `type_data` stored in a parsed type node.  The leaf cases follow
the `ast::type` constructors in src/ast/detail/types.hh; the modifier
prefixes are modelled from the spec (§3 modifier stack, glossary), the
concrete `ast::pointer`/`ast::reference`/`ast::array` → `type_data`
plumbing being absent from src/. -/
def typeNodeData : TypeNode → TypeData
  | .reference _ m h => prependMod (if m then .mut_ref else .ref) (typeNodeData h)
  | .pointer _ m h => prependMod (if m then .mut_ptr else .ptr) (typeNodeData h)
  | .array _ _ h => prependMod .array (typeNodeData h)
  | .builtin _ prec nt => ⟨[], baseOfNumeric nt, .precision prec⟩
  | .user_defined _ n => ⟨[], .user_defined, .name n⟩
  | .implied _ => ⟨[], .implied, .precision 0⟩
  | .void_type _ => ⟨[], .void_type, .precision 0⟩

/-! ## Typechecker (src/core/typechecker.cc)

Only the implemented visitor cases are modelled; every case whose C++
body is `assert(false && "Not implemented")` (or another assertion
failure / UB) is `crash`. -/

structure TCState where
  scope : List (List Char × TypeData)
  aliases : List (List Char × TypeData)
  errs : List Diag
  currentlyInitializing : List Char

inductive TCOut (α : Type) where
  | ok (a : α) (st : TCState)
  | crash

def tcBind {α β : Type} : TCOut α → (α → TCState → TCOut β) → TCOut β
  | .ok a st, k => k a st
  | .crash, _ => .crash

/-- `scope::set` (`insert_or_assign`). -/
def scopeSet (n : List Char) (t : TypeData) (sc : List (List Char × TypeData)) :
    List (List Char × TypeData) :=
  (n, t) :: sc.eraseP (fun e => e.1 == n)

def scopeGet (n : List Char) (sc : List (List Char × TypeData)) : Option TypeData :=
  (sc.find? (fun e => e.1 == n)).map (·.2)

/-- `typechecker::report`: register a `type_error` and keep going. -/
def tcReport (code : ErrCode) (i : SourceInfo) (st : TCState) : TCState :=
  { st with errs := st.errs ++ [⟨code, i.pos, i.len⟩] }

/-- The binary operators `typechecker::visit(ast::binary&)` forwards to
`binary_convert`; every other operator hits `assert(false)`.  (Note
`symbol_bangequal` is absent from the C++ switch.) -/
def binaryOpKinds : List TokKind :=
  [.symbol_plus, .symbol_hyphen, .symbol_star, .symbol_forwardslash,
   .symbol_percent, .symbol_pound, .symbol_caret, .symbol_pipe,
   .symbol_gtgt, .symbol_ltlt, .symbol_gt, .symbol_geq, .symbol_lt,
   .symbol_leq, .symbol_equalequal, .keyword_and, .keyword_or, .keyword_xor]

/-- The expression visitor of the typechecker (the implemented cases of
`typechecker::visit`). -/
def visitExpr : Expr → TCState → TCOut TypeData
  | .char_lit _ _, st => .ok ⟨[], .integer, .precision 8⟩ st
  | .int_lit _ _, st => .ok ⟨[], .integer, .precision 32⟩ st
  | .float_lit _, st => .ok ⟨[], .floating_point, .precision 64⟩ st
  | .bool_lit _ _, st => .ok ⟨[], .boolean, .precision 1⟩ st
  | .string_lit _ _, _ => .crash
  | .ident i n, st =>
    if n == st.currentlyInitializing then
      .ok errorTypeTD (tcReport .using_variable_in_initializer i st)
    else
      match scopeGet n st.scope with
      | some t => .ok t st
      | none => .crash
  | .binary i op l r, st =>
    if binaryOpKinds.contains op then
      tcBind (visitExpr l st) fun lt st =>
      tcBind (visitExpr r st) fun rt st =>
      if canPromote lt rt then .ok rt st
      else if canPromote rt lt then .ok lt st
      else .ok errorTypeTD (tcReport .mismatched_types i st)
    else .crash
  | .unary i op rhs, st =>
    match op with
    | .symbol_at =>
      tcBind (visitExpr rhs st) fun t st => .ok (prependMod .mut_ptr t) st
    | .symbol_star =>
      tcBind (visitExpr rhs st) fun t st =>
      match visitUnaryStar t with
      | .undef => .crash
      | .result t' rep =>
        .ok t' (if rep then tcReport .dereference_requires_pointer_type i st else st)
    | .symbol_pound =>
      tcBind (visitExpr rhs st) fun t st => .ok (prependMod .mut_ref t) st
    | .symbol_hyphen => visitExpr rhs st
    | _ => .crash
  | .call _ _ _, _ => .crash
  | .field_access _ _ _, _ => .crash
  | .index _ _ _, _ => .crash
  | .if_else _ _ _ _, _ => .crash
  | .block _ _ _, _ => .crash

/-- The declaration visitor (`visit(ast::const_decl&)` lines 273-291 and
friends). -/
def visitDecl : Decl → TCState → TCOut TypeData
  | .const_decl i n init ty, st =>
    let st := { st with currentlyInitializing := n }
    tcBind (visitExpr init st) fun ti st =>
    let tA := typeNodeData ty
    if tA.base = .implied then
      .ok ti { st with scope := scopeSet n ti st.scope, currentlyInitializing := [] }
    else
      let st := if tdEq ti tA then st else tcReport .mismatched_types i st
      .ok tA { st with currentlyInitializing := [] }
  | .static_decl i n init ty, st =>
    let st := { st with currentlyInitializing := n }
    tcBind (visitExpr init st) fun ti st =>
    let tA := typeNodeData ty
    if tA.base = .implied then
      .ok ti { st with scope := scopeSet n ti st.scope, currentlyInitializing := [] }
    else
      let st := if tdEq ti tA then st else tcReport .mismatched_types i st
      .ok tA { st with currentlyInitializing := [] }
  | .fn _ _ _ _ _, _ => .crash
  | .module_decl _ _, _ => .crash
  | .export_decl _ d, st => visitDecl d st
  | .type_decl _ ty _, st => .ok (typeNodeData ty) st

/-- `typechecker::handle_single_declaration` (lines 494-524); the
`default` case is `assert(false)`. -/
def handleSingleDeclaration : Decl → TCState → TCOut Unit
  | .const_decl _ n _ ty, st =>
    .ok () { st with scope := scopeSet n (typeNodeData ty) st.scope }
  | .static_decl _ n _ ty, st =>
    .ok () { st with scope := scopeSet n (typeNodeData ty) st.scope }
  | .export_decl _ d, st => handleSingleDeclaration d st
  | .fn _ n _ rty _, st =>
    .ok () { st with scope := scopeSet n (typeNodeData rty) st.scope }
  | .type_decl _ ty n, st =>
    .ok () { st with aliases := scopeSet n (typeNodeData ty) st.aliases }
  | .module_decl _ _, _ => .crash

/-- `typechecker::register_global_symbols`. -/
def registerGlobals : List Decl → TCState → TCOut Unit
  | [], st => .ok () st
  | d :: ds, st => tcBind (handleSingleDeclaration d st) fun _ st => registerGlobals ds st

def visitDecls : List Decl → TCState → TCOut Unit
  | [], st => .ok () st
  | d :: ds, st => tcBind (visitDecl d st) fun _ st => visitDecls ds st

/-- `typechecker::typecheck_program` on one program: register global
symbols, then visit every declaration; the result is the list of
diagnostics reported through the sink. -/
def typecheck (p : Program) : TCOut (List Diag) :=
  let st0 : TCState := ⟨[], [], [], []⟩
  tcBind (registerGlobals p.decls st0) fun _ st =>
  tcBind (visitDecls p.decls st) fun _ st =>
  .ok st.errs st

/-! ## Pipeline helpers and concrete claim inputs -/

/-- Lex then parse; the returned program together with the parser's
diagnostics, `none` on crash or fuel exhaustion. -/
def parseOk (src : List Char) : Option (Program × List Diag) :=
  match parse (lex src).1 with
  | .ok p s => some (p, s.errs)
  | _ => none

/-- Lex, parse, then typecheck: the diagnostics of the three stages. -/
def pipelineDiags (src : List Char) : Option (List Diag × List Diag × List Diag) :=
  match parse (lex src).1 with
  | .ok p s =>
    (match typecheck p with
     | .ok td _ => some ((lex src).2, s.errs, td)
     | .crash => none)
  | _ => none

/-- The initializer expression of a program consisting of one `const`
declaration. -/
def constInit : Program → Option Expr
  | ⟨[.const_decl _ _ init _]⟩ => some init
  | _ => none

/-- The statement list of the body block of a function declaration. -/
def fnBodyStmts : Decl → Option (List (Option Stmt))
  | .fn _ _ _ _ (.block _ stmts _) => some stmts
  | _ => none

/-- Source of spec scenario 5 (claim C6). -/
def c6Input : List Char := "fn f() { let x = 1 let y = 2; }".data

/-- Source whose parse exercises the `loop` statement (claim C5). -/
def c5Input : List Char := "fn f() { loop { } }".data

/-- The loop statement node that parsing `c5Input` produces. -/
def c5LoopStmt : Stmt :=
  .loopS ⟨9, 1, 10, 8⟩ none
    (.block ⟨14, 1, 15, 3⟩ [] (.implied ⟨14, 1, 15, 1⟩))

/-- A source whose statement productions reach the `break_continue` stub
(claim C9). -/
def c9Src : List Char := "fn f(){break}".data

/-- `lex c9Src`: the token vector on which `parse` loops forever. -/
def c9Toks : List Token :=
  [⟨0, 1, 1, .keyword_fn, "fn".data⟩,
   ⟨3, 1, 4, .identifier, "f".data⟩,
   ⟨4, 1, 5, .symbol_openparen, "(".data⟩,
   ⟨5, 1, 6, .symbol_closeparen, ")".data⟩,
   ⟨6, 1, 7, .symbol_openbrace, "\x7b".data⟩,
   ⟨7, 1, 8, .keyword_break, "break".data⟩,
   ⟨12, 1, 13, .symbol_closebrace, "\x7d".data⟩]

/-- Source form of a type alias (claim C4). -/
def c4Input : List Char := "type MyInt = i32;".data

/-- The token stream `type IDENT = type ;` with an actual `keyword_type`
token, as the parser's `type_decl` production expects it (claim C4). -/
def c4KeywordToks : List Token :=
  [⟨0, 1, 1, .keyword_type, "type".data⟩,
   ⟨5, 1, 6, .identifier, "MyInt".data⟩,
   ⟨11, 1, 12, .symbol_equal, "=".data⟩,
   ⟨13, 1, 14, .identifier, "i32".data⟩,
   ⟨16, 1, 17, .symbol_semicolon, ";".data⟩]

/-- Numeric precision of a `TypeData` (the `std::get<std::size_t>` read;
only used under a numeric-payload hypothesis). -/
def tdPrec (t : TypeData) : Nat :=
  match t.payload with
  | .precision n => n
  | .name _ => 0

/-- A token kind that is neither the `unknown` nor the `error` sentinel. -/
def goodTok (t : Token) : Prop := t.kind ≠ .unknown ∧ t.kind ≠ .error

/-! ## Helper lemmas -/

theorem tdEq_iff (a b : TypeData) : tdEq a b = true ↔
    (a.base = .error_type ∨ b.base = .error_type ∨
     (a.modifiers = b.modifiers ∧ a.base = b.base ∧ a.payload = b.payload)) := by
  unfold tdEq
  by_cases ha : a.base = .error_type
  · simp [ha]
  · by_cases hb : b.base = .error_type
    · simp [ha, hb]
    · simp only [ha, hb, if_false, Bool.and_eq_true, beq_iff_eq, false_or]
      tauto

theorem numericTD_facts (t : TypeData) (h : isNumericTD t = true) :
    t.modifiers = [] ∧
    (t.base = .integer ∨ t.base = .unsigned_integer ∨ t.base = .floating_point) ∧
    t.payload = .precision (tdPrec t) := by
  obtain ⟨ms, b, pl⟩ := t
  unfold isNumericTD at h
  simp only [Bool.and_eq_true, List.isEmpty_iff] at h
  obtain ⟨hm, hrest⟩ := h
  subst hm
  cases b <;> cases pl <;> simp_all [tdPrec]

theorem numericTD_builtin (t : TypeData) (h : isNumericTD t = true) :
    isBuiltinTD t = true := by
  obtain ⟨-, hb, -⟩ := numericTD_facts t h
  unfold isBuiltinTD
  rcases hb with h | h | h <;> simp [h]

theorem canPromote_char (a b : TypeData) (ha : isNumericTD a = true)
    (hb : isNumericTD b = true) :
    canPromote a b = true ↔ (a.base = b.base ∧ tdPrec a ≤ tdPrec b) := by
  obtain ⟨-, -, hpa⟩ := numericTD_facts a ha
  obtain ⟨-, -, hpb⟩ := numericTD_facts b hb
  unfold canPromote payloadLe
  rw [numericTD_builtin a ha]
  by_cases hab : a.base = b.base
  · simp only [hab, if_true, if_true]
    rw [hpa, hpb]
    simp
  · simp [hab]

theorem canPromote_refl (x : TypeData) (h : isNumericTD x = true) :
    canPromote x x = true :=
  (canPromote_char x x h h).mpr ⟨rfl, le_refl _⟩

theorem numericTD_ne_error (b : TypeData) (h : isNumericTD b = true) :
    errorTypeTD ≠ b := by
  intro he
  rw [← he] at h
  simp [isNumericTD, errorTypeTD] at h

theorem promote_eq_imp_canPromote (a b : TypeData) (ha : isNumericTD a = true)
    (hb : isNumericTD b = true) (h : promoteTD a b = b) :
    canPromote a b = true := by
  unfold promoteTD binaryConvertTD at h
  by_cases cab : canPromote a b
  · exact cab
  · by_cases cba : canPromote b a
    · simp [cab, cba] at h
      subst h
      exact absurd (canPromote_refl a ha) (by simp [cab])
    · simp [cab, cba] at h
      exact absurd h (numericTD_ne_error b hb)

theorem blockLoop_c9_div : ∀ h acc, blockLoop c9Toks h acc ⟨5, []⟩ = .fuelOut
  | 0, _ => rfl
  | 1, _ => rfl
  | n + 2, acc => by
      have ih := blockLoop_c9_div (n + 1) (acc ++ [none])
      calc blockLoop c9Toks (n + 2) acc ⟨5, []⟩
          = blockLoop c9Toks (n + 1) (acc ++ [none]) ⟨5, []⟩ := rfl
        _ = .fuelOut := ih

theorem block_c9_div : ∀ e, block c9Toks (e + 1) ⟨4, []⟩ = .fuelOut := by
  intro e
  show pbind (blockLoop c9Toks e [] ⟨5, []⟩) _ = .fuelOut
  rw [blockLoop_c9_div e []]
  rfl

theorem fn_c9_div : ∀ c, fn_decl c9Toks (c + 1) ⟨0, []⟩ = .fuelOut
  | 0 => rfl
  | d + 1 => by
      show pbind (block c9Toks (d + 1) ⟨4, []⟩) _ = .fuelOut
      rw [block_c9_div d]
      rfl

theorem declaration_c9_div : ∀ b, declaration c9Toks (b + 1) ⟨0, []⟩ = .fuelOut
  | 0 => rfl
  | b + 1 => by
      show pbind (fn_decl c9Toks (b + 1) ⟨0, []⟩) _ = .fuelOut
      rw [fn_c9_div b]
      rfl

theorem keywordTable_good :
    ∀ e ∈ keywordTable, e.2 ≠ TokKind.unknown ∧ e.2 ≠ TokKind.error := by
  have h : keywordTable.all
      (fun e => !decide (e.2 = TokKind.unknown) && !decide (e.2 = TokKind.error)) = true := by
    rfl
  intro e he
  have h2 := List.all_eq_true.mp h e he
  simp only [Bool.and_eq_true, Bool.not_eq_true', decide_eq_false_iff_not] at h2
  exact h2

theorem stringToKind_good (s : List Char) (k : TokKind) (h : stringToKind s = some k) :
    k ≠ .unknown ∧ k ≠ .error := by
  unfold stringToKind at h
  rw [Option.map_eq_some'] at h
  obtain ⟨e, he, hk⟩ := h
  have hmem := List.mem_of_find?_eq_some he
  subst hk
  exact keywordTable_good e hmem

theorem singleCharTable_good :
    ∀ e ∈ singleCharTable, e.2 ≠ TokKind.unknown ∧ e.2 ≠ TokKind.error := by
  have h : singleCharTable.all
      (fun e => !decide (e.2 = TokKind.unknown) && !decide (e.2 = TokKind.error)) = true := by
    rfl
  intro e he
  have h2 := List.all_eq_true.mp h e he
  simp only [Bool.and_eq_true, Bool.not_eq_true', decide_eq_false_iff_not] at h2
  exact h2

theorem twoCharTable_good :
    ∀ e ∈ twoCharTable, e.2 ≠ TokKind.unknown ∧ e.2 ≠ TokKind.error := by
  have h : twoCharTable.all
      (fun e => !decide (e.2 = TokKind.unknown) && !decide (e.2 = TokKind.error)) = true := by
    rfl
  intro e he
  have h2 := List.all_eq_true.mp h e he
  simp only [Bool.and_eq_true, Bool.not_eq_true', decide_eq_false_iff_not] at h2
  exact h2

theorem oneOfTwoTable_good :
    ∀ e ∈ oneOfTwoTable, e.2 ≠ TokKind.unknown ∧ e.2 ≠ TokKind.error := by
  have h : oneOfTwoTable.all
      (fun e => !decide (e.2 = TokKind.unknown) && !decide (e.2 = TokKind.error)) = true := by
    rfl
  intro e he
  have h2 := List.all_eq_true.mp h e he
  simp only [Bool.and_eq_true, Bool.not_eq_true', decide_eq_false_iff_not] at h2
  exact h2

theorem singleCharSym_good (c : Char) (k : TokKind) (h : singleCharSym c = some k) :
    k ≠ .unknown ∧ k ≠ .error := by
  unfold singleCharSym at h
  rw [Option.map_eq_some'] at h
  obtain ⟨e, he, hk⟩ := h
  subst hk
  exact singleCharTable_good e (List.mem_of_find?_eq_some he)

theorem twoCharSym_good (c d : Char) (k : TokKind) (h : twoCharSym c d = some k) :
    k ≠ .unknown ∧ k ≠ .error := by
  unfold twoCharSym at h
  rw [Option.map_eq_some'] at h
  obtain ⟨e, he, hk⟩ := h
  subst hk
  exact twoCharTable_good e (List.mem_of_find?_eq_some he)

theorem oneOfTwoSym_good (c : Char) (k : TokKind) (h : oneOfTwoSym c = some k) :
    k ≠ .unknown ∧ k ≠ .error := by
  unfold oneOfTwoSym at h
  rw [Option.map_eq_some'] at h
  obtain ⟨e, he, hk⟩ := h
  subst hk
  exact oneOfTwoTable_good e (List.mem_of_find?_eq_some he)

theorem getD_identifier_good (o : Option TokKind)
    (ho : ∀ k, o = some k → k ≠ TokKind.unknown ∧ k ≠ TokKind.error) :
    o.getD .identifier ≠ TokKind.unknown ∧ o.getD .identifier ≠ TokKind.error := by
  cases o with
  | none => exact ⟨by decide, by decide⟩
  | some k => exact ho k rfl

theorem lexSpaces_none (c : Char) (rt : List Char) (st : LexSt) :
    (lexSpaces c rt st).1 = none := by
  unfold lexSpaces
  repeat' split
  all_goals rfl

theorem lexLineComment_none (c : Char) (rt : List Char) (st : LexSt) :
    (lexLineComment c rt st).1 = none := by
  unfold lexLineComment
  repeat' split
  all_goals rfl

theorem lexBlockComment_none (c : Char) (rt : List Char) (st : LexSt) :
    (lexBlockComment c rt st).1 = none := by
  unfold lexBlockComment
  repeat' split
  all_goals rfl

theorem lexNumber_good (rest : List Char) (st : LexSt) (t : Token)
    (h : (lexNumber rest st).1 = some t) : goodTok t := by
  unfold lexNumber at h
  repeat' split at h
  all_goals
    first
      | exact Option.noConfusion h
      | (injection h with h2; subst h2;
         exact ⟨(fun hh => nomatch hh), (fun hh => nomatch hh)⟩)

theorem lexIdent_good (rest : List Char) (st : LexSt) (t : Token)
    (h : (lexIdent rest st).1 = some t) : goodTok t := by
  unfold lexIdent at h
  repeat' split at h
  all_goals
    injection h with h2
    subst h2
    exact getD_identifier_good _ (stringToKind_good _)

theorem lexStringlike_good (delim : Char) (rt : List Char) (st : LexSt) (t : Token)
    (h : (lexStringlike delim rt st).1 = some t) : goodTok t := by
  unfold lexStringlike at h
  repeat' split at h
  all_goals
    first
      | exact Option.noConfusion h
      | (injection h with h2; subst h2;
         exact ⟨(fun hh => nomatch hh), (fun hh => nomatch hh)⟩)

theorem lexOne_good (c : Char) (rt : List Char) (st : LexSt) (t : Token)
    (h : (lexOne c rt st).1 = some t) : goodTok t := by
  unfold lexOne at h
  dsimp only at h
  repeat' split at h
  all_goals
    first
      | exact Option.noConfusion h
      | (rw [lexSpaces_none] at h; exact Option.noConfusion h)
      | (rw [lexLineComment_none] at h; exact Option.noConfusion h)
      | (rw [lexBlockComment_none] at h; exact Option.noConfusion h)
      | exact lexNumber_good _ _ _ h
      | exact lexIdent_good _ _ _ h
      | exact lexStringlike_good _ _ _ _ h
      | (injection h with h2; subst h2;
         first
           | exact singleCharSym_good _ _ (by assumption)
           | exact twoCharSym_good _ _ _ (by assumption)
           | exact oneOfTwoSym_good _ _ (by assumption))

theorem lexLoop_good : ∀ (fuel : Nat) (rest : List Char) (st : LexSt) (t : Token),
    t ∈ (lexLoop fuel rest st).1 → goodTok t
  | 0, _, _, _, h => absurd h (by simp [lexLoop])
  | fuel + 1, [], _, _, h => absurd h (by simp [lexLoop])
  | fuel + 1, c :: rt, st, t, h => by
    rcases hx : lexOne c rt st with ⟨t?, ds, r', st'⟩
    rw [lexLoop] at h
    rw [hx] at h
    simp only [List.mem_append] at h
    rcases h with h | h
    · cases t? with
      | none => simp at h
      | some t0 =>
        simp only [Option.toList_some, List.mem_singleton] at h
        subst h
        exact lexOne_good c rt st _ (by rw [hx])
    · exact lexLoop_good fuel r' st' t h

/-! ## Theorems -/

/-- C1: For the input `const x: i32 = 3.5;` the whole pipeline reports NO
diagnostic at all — not the one `mismatched_types` error the spec
describes.  The lexer tags `3.5` as `literal_number` (never
`literal_float`), `primary` converts it with `std::from_chars` into the
integer `3`, and the typechecker then finds `i32 = i32`.  The second
conjunct pins the parsed initializer down as the int literal 3. -/
theorem c1_pipeline_reports_no_error :
    pipelineDiags "const x: i32 = 3.5;".data = some ([], [], []) ∧
    ((parseOk "const x: i32 = 3.5;".data).bind fun r => constInit r.1) =
      some (.int_lit ⟨15, 1, 16, 3⟩ 3) := by
  exact ⟨rfl, rfl⟩

/-- C2: the `symbol_star` case of `typechecker::visit(ast::unary&)`
reports `dereference_requires_pointer_type` for EVERY operand type with a
non-empty modifier stack — including `ptr`/`mut_ptr`-fronted (pointer)
types, because `front() != mut_ptr || front() != ptr` is a tautology —
and returns the operand type with its outermost modifier NOT stripped. -/
theorem c2_deref_always_reports_and_never_strips (m : TypeModifier)
    (ms : List TypeModifier) (b : TypeBase) (p : TypePayload) :
    visitUnaryStar ⟨m :: ms, b, p⟩ = .result ⟨m :: ms, b, p⟩ true := by
  cases m <;> rfl

/-- C3: the numeric token for `3.5` — a lexeme containing a dot — has
kind `literal_number`, not the float-literal kind: `consume_digits`
produces `literal_number` unconditionally. -/
theorem c3_dot_lexeme_is_literal_number :
    lex "3.5".data = ([⟨0, 1, 1, .literal_number, "3.5".data⟩], []) ∧
    TokKind.literal_number ≠ TokKind.literal_float := by
  exact ⟨rfl, by decide⟩

/-- C4: lexing `type MyInt = i32;` turns `type` into a plain identifier
(the keyword table in src/util/keywords.cc has no entry for "type"), so
the parser reports `expected_declaration` and yields an empty program —
whereas handing the parser an actual `keyword_type` token stream produces
the one type-alias declaration with that name and the aliased type and no
errors. -/
theorem c4_type_alias_unreachable_from_source :
    ((lex c4Input).1.map Token.kind =
      [.identifier, .identifier, .symbol_equal, .identifier, .symbol_semicolon]) ∧
    (lex c4Input).2 = [] ∧
    parseOk c4Input = some (⟨[]⟩, [⟨.expected_declaration, 0, 4⟩]) ∧
    (match parse c4KeywordToks with
     | .ok p s =>
       p.decls = [.type_decl ⟨0, 1, 1, 17⟩ (.builtin ⟨13, 1, 14, 3⟩ 32 .integer)
                    "MyInt".data] ∧ s.errs = []
     | _ => False) := by
  exact ⟨rfl, rfl, rfl, rfl, rfl⟩

/-- C5: parsing `fn f() { loop { } }` succeeds with zero errors, and the
resulting loop statement node is of the runtime `loop` class but carries
the kind discriminator `statement_ret` (there is no loop kind in the
enum); `ast::node::accept` dispatches that kind to the `ret` class, not
the node's own class. -/
theorem c5_loop_node_kind_mismatch :
    parseOk c5Input =
      some (⟨[.fn ⟨0, 1, 1, 19⟩ "f".data [] (.void_type ⟨5, 1, 6, 1⟩)
               (.block ⟨7, 1, 8, 12⟩ [some c5LoopStmt] (.implied ⟨7, 1, 8, 1⟩))]⟩,
            []) ∧
    c5LoopStmt.classOf = .loop_stmt ∧
    c5LoopStmt.kindOf = .statement_ret ∧
    acceptDispatch c5LoopStmt.kindOf = some .ret_stmt ∧
    CClass.ret_stmt ≠ CClass.loop_stmt := by
  exact ⟨rfl, rfl, rfl, rfl, by decide⟩

/-- C6 (counterexample): on `fn f() { let x = 1 let y = 2; }` the parser
reports exactly one `expected_semi` error at the second `let` (position
19) — but the returned function's body block contains NO statements, not
the two let statements the claim asserts. -/
theorem c6_body_has_no_let_statements :
    ((parseOk c6Input).map fun r => (r.2, r.1.decls.map fnBodyStmts)) =
      some ([⟨.expected_semi, 19, 3⟩], [some []]) ∧
    ([] : List (Option Stmt)).length ≠ 2 := by
  exact ⟨rfl, by decide⟩

/-- C6 (amended): the parser reports exactly one `expected_semi` error at
the second `let`, synchronizes (discarding the let statement it was
building and consuming the second let statement up to its semicolon), and
returns a function declaration whose body block is empty. -/
theorem c6_amended_recovery_behaviour :
    parseOk c6Input =
      some (⟨[.fn ⟨0, 1, 1, 31⟩ "f".data [] (.void_type ⟨5, 1, 6, 1⟩)
               (.block ⟨7, 1, 8, 24⟩ [] (.implied ⟨7, 1, 8, 1⟩))]⟩,
            [⟨.expected_semi, 19, 3⟩]) := by
  exact rfl

/-- C7: `type_data::operator==` holds iff either side's base is the error
type or the modifier sequences, bases and payloads are all equal; it is
reflexive and symmetric, and the error type compares equal to
everything. -/
theorem c7_type_data_equality :
    (∀ a b : TypeData, tdEq a b = true ↔
      (a.base = .error_type ∨ b.base = .error_type ∨
       (a.modifiers = b.modifiers ∧ a.base = b.base ∧ a.payload = b.payload))) ∧
    (∀ x : TypeData, tdEq x x = true) ∧
    (∀ x y : TypeData, tdEq x y = tdEq y x) ∧
    (∀ x : TypeData, tdEq errorTypeTD x = true) := by
  refine ⟨tdEq_iff, ?_, ?_, ?_⟩
  · intro x
    exact (tdEq_iff x x).mpr (Or.inr (Or.inr ⟨rfl, rfl, rfl⟩))
  · intro x y
    cases hxy : tdEq x y <;> cases hyx : tdEq y x
    · rfl
    · exfalso
      have h1 := (tdEq_iff y x).mp hyx
      have h2 := tdEq_iff x y
      rw [hxy] at h2
      have h3 : ¬ (x.base = .error_type ∨ y.base = .error_type ∨
          (x.modifiers = y.modifiers ∧ x.base = y.base ∧ x.payload = y.payload)) := by
        intro hc
        exact absurd (h2.mpr hc) (by simp)
      tauto
    · exfalso
      have h1 := (tdEq_iff x y).mp hxy
      have h2 := tdEq_iff y x
      rw [hyx] at h2
      have h3 : ¬ (y.base = .error_type ∨ x.base = .error_type ∨
          (y.modifiers = x.modifiers ∧ y.base = x.base ∧ y.payload = x.payload)) := by
        intro hc
        exact absurd (h2.mpr hc) (by simp)
      tauto
    · rfl
  · intro x
    exact (tdEq_iff errorTypeTD x).mpr (Or.inl rfl)

/-- C8: on numeric types, promotion (the `binary_convert` result driven by
`can_promote`) satisfies `promote(x, x) = x` and the transitivity law, and
`can_promote` holds exactly between two types of the same base when the
target's precision is at least the source's (so no cross-base conversion,
no narrowing, no signed/unsigned mixing). -/
theorem c8_promotion_partial_order :
    (∀ x : TypeData, isNumericTD x = true → promoteTD x x = x) ∧
    (∀ a b c : TypeData, isNumericTD a = true → isNumericTD b = true →
      isNumericTD c = true → promoteTD a b = b → promoteTD b c = c →
      promoteTD a c = c) ∧
    (∀ a b : TypeData, isNumericTD a = true → isNumericTD b = true →
      (canPromote a b = true ↔ (a.base = b.base ∧ tdPrec a ≤ tdPrec b))) := by
  refine ⟨?_, ?_, canPromote_char⟩
  · intro x hx
    unfold promoteTD binaryConvertTD
    simp [canPromote_refl x hx]
  · intro a b c ha hb hc hab hbc
    have cab := promote_eq_imp_canPromote a b ha hb hab
    have cbc := promote_eq_imp_canPromote b c hb hc hbc
    obtain ⟨e1, p1⟩ := (canPromote_char a b ha hb).mp cab
    obtain ⟨e2, p2⟩ := (canPromote_char b c hb hc).mp cbc
    have cac : canPromote a c = true :=
      (canPromote_char a c ha hc).mpr ⟨e1.trans e2, p1.trans p2⟩
    unfold promoteTD binaryConvertTD
    simp [cac]

/-- C8 witness: reflexivity at `i8`, transitivity through `i8 → i16 → i32`,
and the characterization at `(i8, i16)`. -/
theorem c8_promotion_witness :
    promoteTD ⟨[], .integer, .precision 8⟩ ⟨[], .integer, .precision 8⟩ =
      ⟨[], .integer, .precision 8⟩ ∧
    promoteTD ⟨[], .integer, .precision 8⟩ ⟨[], .integer, .precision 32⟩ =
      ⟨[], .integer, .precision 32⟩ ∧
    (canPromote ⟨[], .integer, .precision 8⟩ ⟨[], .integer, .precision 16⟩ = true ↔
      ((TypeBase.integer = TypeBase.integer) ∧
        tdPrec ⟨[], .integer, .precision 8⟩ ≤ tdPrec ⟨[], .integer, .precision 16⟩)) :=
  ⟨c8_promotion_partial_order.1 ⟨[], .integer, .precision 8⟩ (by decide),
   c8_promotion_partial_order.2.1 ⟨[], .integer, .precision 8⟩
     ⟨[], .integer, .precision 16⟩ ⟨[], .integer, .precision 32⟩
     (by decide) (by decide) (by decide) (by decide) (by decide),
   c8_promotion_partial_order.2.2 ⟨[], .integer, .precision 8⟩
     ⟨[], .integer, .precision 16⟩ (by decide) (by decide)⟩

/-- C9: lexing `fn f(){break}` yields the token vector `c9Toks`, on which
`parse` does not terminate — `break_continue` is the stub
`return nullptr;` that consumes no token, so the statement loop of `block`
repeats the same state forever: the parse runs out of ANY amount of
fuel. -/
theorem c9_parse_diverges_on_break_stub :
    (lex c9Src).1 = c9Toks ∧ ∀ fuel : Nat, parseF c9Toks fuel = .fuelOut := by
  refine ⟨rfl, ?_⟩
  intro fuel
  match fuel with
  | 0 => rfl
  | 1 => rfl
  | a + 2 =>
    have h := declaration_c9_div a
    show parseLoop c9Toks (a + 2) [] false ⟨0, []⟩ = .fuelOut
    simp only [parseLoop]
    rw [h]
    rfl

/-- C10: no token returned by `lex` carries the `unknown` or `error`
sentinel kind: those kinds exist only inside tokens attached to
diagnostics, and an erroneous lexeme contributes no token to the returned
vector. -/
theorem c10_lex_no_unknown_or_error_tokens :
    ∀ (src : List Char) (t : Token), t ∈ (lex src).1 →
      t.kind ≠ .unknown ∧ t.kind ≠ .error := by
  intro src t h
  exact lexLoop_good (src.length + 1) src ⟨0, 1, 1⟩ t h

/-- C10 witness: the identifier token of the source `x`. -/
theorem c10_lex_witness :
    (⟨0, 1, 1, .identifier, "x".data⟩ : Token) ∈ (lex "x".data).1 ∧
    ((⟨0, 1, 1, .identifier, "x".data⟩ : Token).kind ≠ .unknown ∧
     (⟨0, 1, 1, .identifier, "x".data⟩ : Token).kind ≠ .error) :=
  ⟨by decide,
   c10_lex_no_unknown_or_error_tokens "x".data ⟨0, 1, 1, .identifier, "x".data⟩
     (by decide)⟩

end Cascade
